import Mathlib

/-!
SkillSwap (`src/new.jsx`): a shallow embedding.

The single-page application of `src/new.jsx` is embedded as pure functions.

* JavaScript strings are Lean `String`s (sequences of Unicode scalar values); where the
  source observes UTF-16 code units (`.length`, a regular expression without the `u`
  flag) the embedding goes through `codeUnits`.
* A component is a function of the state it reads (`user`, `location`, form fields).
* An event handler is a function returning the list of its effects in program order
  (notifications, provider calls, navigations, state updates, timers).  The identity
  provider is an external collaborator: it is a parameter `Provider` giving the outcome
  of every call, `Except.error m` standing for a rejected promise whose error has
  `message` equal to `m`.
-/

set_option autoImplicit false

namespace SkillSwap

/-! ## Strings -/

/-- UTF-16 code units of one Unicode scalar value (a surrogate pair above the BMP). -/
def utf16Units (c : Char) : List Nat :=
  if c.toNat < 0x10000 then [c.toNat]
  else [0xD800 + (c.toNat - 0x10000) / 0x400, 0xDC00 + (c.toNat - 0x10000) % 0x400]

/-- The code units of a string, as JavaScript sees it. -/
def codeUnits (s : String) : List Nat :=
  (s.data.map utf16Units).flatten

/-- JavaScript `s.length`: the number of UTF-16 code units. -/
def jsLength (s : String) : Nat :=
  (codeUnits s).length

/-- `/[lo-hi]/.test(s)` on the code units of `s`: the unanchored search tries every start
position in turn and succeeds at the first code unit inside the class. -/
def regexTestClass (lo hi : Nat) : List Nat → Bool
  | [] => false
  | u :: us => (decide (lo ≤ u) && decide (u ≤ hi)) || regexTestClass lo hi us

/-- JavaScript truthiness of a string: `!s` is true exactly for the empty string. -/
def truthy (s : String) : Bool :=
  !(s == "")

/-- String conversion of a boolean inside a template literal. -/
def boolToString (b : Bool) : String :=
  if b then "true" else "false"

/-! ## Signup: password validation (`Signup.validatePassword`) -/

/-- The record returned by `validatePassword`. -/
structure PasswordCheck where
  ok : Bool
  hasUpper : Bool
  hasLower : Bool
  len : Bool
  deriving DecidableEq, Repr

/-- `validatePassword` of `Signup`. -/
def validatePassword (pw : String) : PasswordCheck :=
  let hasUpper := regexTestClass 'A'.toNat 'Z'.toNat (codeUnits pw)
  let hasLower := regexTestClass 'a'.toNat 'z'.toNat (codeUnits pw)
  let len := decide (jsLength pw ≥ 6)
  { ok := hasUpper && hasLower && len, hasUpper := hasUpper, hasLower := hasLower, len := len }

/-! ## Session, provider and effects -/

/-- The session value published by the identity provider (`auth.currentUser`). -/
structure User where
  uid : String
  displayName : Option String
  email : Option String
  photoURL : Option String
  deriving DecidableEq, Repr

/-- A call into the identity provider, with its arguments (`auth` and `googleProvider`
are module constants and are left out). -/
inductive ProviderCall where
  | signInWithEmailAndPassword (email password : String)
  | signInWithPopup
  | createUserWithEmailAndPassword (email password : String)
  | updateProfile (user : User) (displayName photoURL : String)
  | sendPasswordResetEmail (email : String)
  | signOut
  deriving DecidableEq, Repr

/-- The identity provider: the outcome of each call.  `Except.error m` is a rejected
promise whose error object has `message` equal to `m`. -/
structure Provider where
  signInWithEmailAndPassword : String → String → Except String User
  signInWithPopup : Except String User
  createUserWithEmailAndPassword : String → String → Except String User
  updateProfile : User → String → String → Except String Unit
  sendPasswordResetEmail : String → Except String Unit
  signOut : Except String Unit

/-- What a handler does, in program order. -/
inductive Effect where
  | preventDefault
  | call (c : ProviderCall)
  | toastSuccess (msg : String)
  | toastError (msg : String)
  | navigate (to_ : String) (replace : Bool)
  | setTimeoutHref (href : String) (delay : Nat)
  deriving DecidableEq, Repr

/-- The effect is a client-side navigation or a scheduled change of `window.location`. -/
def Effect.isNavigation : Effect → Bool
  | .navigate _ _ => true
  | .setTimeoutHref _ _ => true
  | _ => false

/-- The effect is a call into the provider. -/
def Effect.isCall : Effect → Bool
  | .call _ => true
  | _ => false

/-- The effect is a success notification. -/
def Effect.isToastSuccess : Effect → Bool
  | .toastSuccess _ => true
  | _ => false

/-! ## Locations and the route guard (`ProtectedRoute`) -/

/-- The router's location object; `σ` is the type of its `state`. -/
structure Location (σ : Type) where
  pathname : String
  search : String
  hash : String
  state : σ
  key : String
  deriving DecidableEq, Repr

/-- The fields the views read from `location.state`; an absent key is `none`.
`from_` is the key `from`. -/
structure NavState (σ : Type) where
  from_ : Option (Location σ)
  prefilledEmail : Option String
  email : Option String
  deriving DecidableEq, Repr

/-- What `ProtectedRoute` returns: its children, or a `<Navigate>` element. -/
inductive GuardResult (σ α : Type) where
  | children (c : α)
  | Navigate (to_ : String) (state : NavState σ) (replace : Bool)
  deriving DecidableEq, Repr

/-- `ProtectedRoute`: `user` is the component's state (the latest session value),
`location` the result of `useLocation()`. -/
def ProtectedRoute {σ α : Type} (user : Option User) (location : Location σ) (children : α) :
    GuardResult σ α :=
  match user with
  | some _ => .children children
  | none =>
    .Navigate "/login" { from_ := some location, prefilledEmail := none, email := none } true

/-! ## Login -/

/-- `from` of `Login`: `location.state?.from?.pathname || "/"`. -/
def Login.from_ {σ : Type} (location : Location (Option (NavState σ))) : String :=
  match (location.state.bind (fun st => st.from_)).map (fun l => l.pathname) with
  | some p => if truthy p then p else "/"
  | none => "/"

/-- `Login.loginWithEmail`. -/
def Login.loginWithEmail {σ : Type} (P : Provider) (location : Location (Option (NavState σ)))
    (email password : String) : List Effect :=
  .preventDefault :: .call (.signInWithEmailAndPassword email password) ::
    match P.signInWithEmailAndPassword email password with
    | .ok _ => [.toastSuccess "Logged in", .navigate (Login.from_ location) true]
    | .error m => [.toastError ("Login failed: " ++ m)]

/-- `Login.loginWithGoogle`. -/
def Login.loginWithGoogle {σ : Type} (P : Provider)
    (location : Location (Option (NavState σ))) : List Effect :=
  .call .signInWithPopup ::
    match P.signInWithPopup with
    | .ok _ => [.toastSuccess "Logged in with Google", .navigate (Login.from_ location) true]
    | .error _ => [.toastError "Google login failed"]

/-! ## Signup -/

/-- `Signup.signup`; the arguments after the provider are the component's state. -/
def Signup.signup (P : Provider) (name photoURL email password : String) : List Effect :=
  let v := validatePassword password
  if !v.ok then
    [.preventDefault,
     .toastError ("Password invalid. Uppercase: " ++ boolToString v.hasUpper ++
       ", Lowercase: " ++ boolToString v.hasLower ++ ", Length >=6: " ++ boolToString v.len)]
  else
    .preventDefault :: .call (.createUserWithEmailAndPassword email password) ::
      match P.createUserWithEmailAndPassword email password with
      | .error m => [.toastError ("Signup failed: " ++ m)]
      | .ok user =>
        .call (.updateProfile user name photoURL) ::
          match P.updateProfile user name photoURL with
          | .error m => [.toastError ("Signup failed: " ++ m)]
          | .ok _ => [.toastSuccess "Account created", .navigate "/" true]

/-- `Signup.signupWithGoogle`. -/
def Signup.signupWithGoogle (P : Provider) : List Effect :=
  .call .signInWithPopup ::
    match P.signInWithPopup with
    | .ok _ => [.toastSuccess "Signed up with Google", .navigate "/" true]
    | .error _ => [.toastError "Google signup failed"]

/-! ## UpdateProfile -/

/-- `UpdateProfile.handleUpdate`; `user`, `name`, `photo` are the component's state. -/
def UpdateProfile.handleUpdate (P : Provider) (user : Option User) (name photo : String) :
    List Effect :=
  match user with
  | none => [.preventDefault]
  | some u =>
    .preventDefault :: .call (.updateProfile u name photo) ::
      match P.updateProfile u name photo with
      | .ok _ => [.toastSuccess "Profile updated", .navigate "/profile" false]
      | .error _ => [.toastError "Update failed"]

/-! ## ForgotPassword -/

/-- `ForgotPassword.handleReset`; the timer callback assigns `window.location.href`. -/
def ForgotPassword.handleReset (P : Provider) (email : String) : List Effect :=
  if !truthy email then [.preventDefault, .toastError "Enter email"]
  else
    .preventDefault :: .call (.sendPasswordResetEmail email) ::
      match P.sendPasswordResetEmail email with
      | .ok _ =>
        [.toastSuccess "Reset email sent. Redirecting to Gmail...",
         .setTimeoutHref "https://mail.google.com" 1000]
      | .error m => [.toastError ("Reset failed: " ++ m)]

/-! ## Navbar -/

/-- `AppNavbar.handleLogout`. -/
def AppNavbar.handleLogout (P : Provider) : List Effect :=
  .call .signOut ::
    match P.signOut with
    | .ok _ => [.toastSuccess "Logged out"]
    | .error _ => [.toastError "Logout failed"]

/-! ## The catalog (`SKILLS`) -/

/-- One catalog entry.  `rating` is in hundredths (`4.8` is `480`). -/
structure Skill where
  skillId : Nat
  skillName : String
  providerName : String
  providerEmail : String
  price : Nat
  rating : Nat
  slotsAvailable : Nat
  description : String
  image : String
  category : String
  deriving DecidableEq, Repr

/-- `SKILLS`. -/
def SKILLS : List Skill :=
  [ { skillId := 1, skillName := "Beginner Guitar Lessons", providerName := "Alex Martin",
      providerEmail := "alex@skillswap.com", price := 20, rating := 480, slotsAvailable := 3,
      description := "Acoustic guitar classes for complete beginners.",
      image := "https://i.postimg.cc/3xk3G0c0/guitar.jpg", category := "Music" },
    { skillId := 2, skillName := "Spoken English Practice", providerName := "Sara Hossain",
      providerEmail := "sara@skillswap.com", price := 10, rating := 460, slotsAvailable := 5,
      description := "Conversational English sessions for non-native speakers.",
      image := "https://i.postimg.cc/QC2r6Z6s/english.jpg", category := "Language" },
    { skillId := 3, skillName := "Intro to Web Development", providerName := "Rafi Khan",
      providerEmail := "rafi@skillswap.com", price := 25, rating := 490, slotsAvailable := 2,
      description := "HTML, CSS and basic JavaScript for total beginners.",
      image := "https://i.postimg.cc/0Q5m0VYD/webdev.jpg", category := "Tech" },
    { skillId := 4, skillName := "Yoga for Beginners", providerName := "Maya Roy",
      providerEmail := "maya@skillswap.com", price := 15, rating := 470, slotsAvailable := 6,
      description := "Gentle yoga sessions focusing on flexibility and breathing.",
      image := "https://i.postimg.cc/T3f9z3kB/yoga.jpg", category := "Wellness" },
    { skillId := 5, skillName := "Spanish Conversation", providerName := "Carlos Perez",
      providerEmail := "carlos@skillswap.com", price := 18, rating := 450, slotsAvailable := 4,
      description := "Practice speaking Spanish in a relaxed environment.",
      image := "https://i.postimg.cc/0j0L0P3f/spanish.jpg", category := "Language" },
    { skillId := 6, skillName := "Portrait Photography Basics", providerName := "Nina Bose",
      providerEmail := "nina@skillswap.com", price := 30, rating := 485, slotsAvailable := 1,
      description := "Understand light, composition, and posing for portraits.",
      image := "https://i.postimg.cc/XYzTgqG1/photo.jpg", category := "Art" } ]

/-! ## `parseInt(s, 10)` -/

/-- White space and line terminators skipped by `parseInt` before the number. -/
def isStrWhiteSpace (c : Char) : Bool :=
  [0x09, 0x0A, 0x0B, 0x0C, 0x0D, 0x20, 0xA0, 0x1680, 0x2028, 0x2029, 0x202F, 0x205F, 0x3000,
    0xFEFF].contains c.toNat || (decide (0x2000 ≤ c.toNat) && decide (c.toNat ≤ 0x200A))

/-- A decimal digit. -/
def isDigit10 (c : Char) : Bool :=
  decide ('0'.toNat ≤ c.toNat) && decide (c.toNat ≤ '9'.toNat)

/-- The value of a run of decimal digits. -/
def digitsValue (ds : List Char) : Nat :=
  ds.foldl (fun n c => 10 * n + (c.toNat - '0'.toNat)) 0

/-- `parseInt(s, 10)`: skip leading white space, take an optional sign, then the longest
run of decimal digits; `none` is `NaN`.  The result is the exact integer: the source only
compares it with `===` against the identifiers 1..6, and a Number equals one of them
exactly when the integer does (`-0 === 0` included). -/
def parseInt10 (s : String) : Option Int :=
  let S := s.data.dropWhile isStrWhiteSpace
  let sign : Int := match S with
    | '-' :: _ => -1
    | _ => 1
  let S := match S with
    | '-' :: rest => rest
    | '+' :: rest => rest
    | _ => S
  let Z := S.takeWhile isDigit10
  if Z.isEmpty then none else some (sign * (digitsValue Z : Int))

/-! ## SkillDetails -/

/-- The booking form state of `SkillDetails`. -/
structure BookingForm where
  name : String
  email : String
  deriving DecidableEq, Repr

/-- What `SkillDetails` renders. -/
inductive DetailView where
  | skillNotFound
  | details (skill : Skill) (form : BookingForm)
  deriving DecidableEq, Repr

/-- Reading the fields of `skill` in the render body: a `TypeError` when it is `undefined`. -/
def readSkill (skill : Option Skill) : Except String Skill :=
  match skill with
  | some s => .ok s
  | none => .error "TypeError: Cannot read properties of undefined"

/-- The lookup of `SkillDetails`: `SKILLS.find((s) => s.skillId === id)`. -/
def findSkill (id : Option Int) : Option Skill :=
  SKILLS.find? (fun s => id == some (s.skillId : Int))

/-- `SkillDetails`, as a function of the `:id` route parameter and the form state. -/
def SkillDetails (paramsId : String) (form : BookingForm) : Except String DetailView :=
  let id := parseInt10 paramsId
  let skill := findSkill id
  if skill.isNone then .ok .skillNotFound
  else do
    let s ← readSkill skill
    pure (.details s form)

/-- `SkillDetails.handleSubmit`: its effects and the form state after it. -/
def SkillDetails.handleSubmit (form : BookingForm) : List Effect × BookingForm :=
  if !truthy form.name || !truthy form.email then
    ([.preventDefault, .toastError "Please fill name and email"], form)
  else
    ([.preventDefault, .toastSuccess "Session booked successfully!"],
      { name := "", email := "" })

/-! ## The route table (`App`) -/

/-- The views of the application. -/
inductive View where
  | Home | SkillDetails | Login | Signup | Profile | UpdateProfile | ForgotPassword | NotFound
  deriving DecidableEq, Repr

/-- A route element: a view, possibly wrapped in `ProtectedRoute`. -/
inductive Element where
  | view (v : View)
  | ProtectedRoute (children : Element)
  deriving DecidableEq, Repr

/-- `SkillDetailsWrapper`. -/
def SkillDetailsWrapper : Element :=
  .ProtectedRoute (.view .SkillDetails)

/-- A segment of a route path: literal text, or a `:name` parameter. -/
inductive Segment where
  | static (text : String)
  | param (name : String)
  deriving DecidableEq, Repr

/-- A route path: its segments, or the catch-all `*`. -/
inductive RoutePath where
  | segments (segs : List Segment)
  | splat
  deriving DecidableEq, Repr

/-- The `<Routes>` table of `App`, in source order. -/
def routes : List (RoutePath × Element) :=
  [ (.segments [], .view .Home),                                            -- "/"
    (.segments [.static "skill", .param "id"], SkillDetailsWrapper),      -- "/skill/:id"
    (.segments [.static "login"], .view .Login),                            -- "/login"
    (.segments [.static "signup"], .view .Signup),                          -- "/signup"
    (.segments [.static "profile"], .ProtectedRoute (.view .Profile)),      -- "/profile"
    (.segments [.static "update-profile"],
      .ProtectedRoute (.view .UpdateProfile)),                              -- "/update-profile"
    (.segments [.static "forgot-password"], .view .ForgotPassword),         -- "/forgot-password"
    (.splat, .view .NotFound) ]                                             -- "*"

/-- The router's matching of the rest of a pathname against the rest of a path: every
segment is a `/` followed by a non-empty run without `/`, a literal one compared without
regard to case; trailing slashes are allowed. -/
def matchSegments : List Segment → List Char → Bool
  | [], cs => cs.all (fun c => c == '/')
  | seg :: rest, cs =>
    match cs with
    | '/' :: cs' =>
      let part := cs'.takeWhile (fun c => c != '/')
      let tail := cs'.dropWhile (fun c => c != '/')
      !part.isEmpty &&
        (match seg with
          | .static text => part.map Char.toLower == text.data.map Char.toLower
          | .param _ => true) &&
        matchSegments rest tail
    | _ => false

/-- The value of a hexadecimal digit. -/
def hexValue (c : Char) : Option Nat :=
  if '0'.toNat ≤ c.toNat ∧ c.toNat ≤ '9'.toNat then some (c.toNat - '0'.toNat)
  else if 'a'.toNat ≤ c.toNat ∧ c.toNat ≤ 'f'.toNat then some (c.toNat - 'a'.toNat + 10)
  else if 'A'.toNat ≤ c.toNat ∧ c.toNat ≤ 'F'.toNat then some (c.toNat - 'A'.toNat + 10)
  else none

/-- What `decodeURIComponent` reads: a character taken as it is, or the byte of an escape
`%XX`. -/
inductive UriToken where
  | lit (c : Char)
  | byte (b : Nat)
  deriving DecidableEq, Repr

/-- The escapes of a string; `none` when a `%` is not followed by two hexadecimal digits
(a `URIError`). -/
def uriTokens : List Char → Option (List UriToken)
  | [] => some []
  | c :: rest =>
    if c = '%' then
      match rest with
      | a :: b :: rest' =>
        match hexValue a, hexValue b, uriTokens rest' with
        | some x, some y, some ts => some (.byte (16 * x + y) :: ts)
        | _, _, _ => none
      | _ => none
    else (uriTokens rest).map (fun ts => .lit c :: ts)

/-- A continuation byte of UTF-8. -/
def isContinuation (b : Nat) : Bool :=
  decide (0x80 ≤ b) && decide (b ≤ 0xBF)

/-- A multi-byte UTF-8 sequence being read: continuation bytes still expected, the bits
read so far, and the least code point the sequence may encode. -/
structure Utf8Pending where
  more : Nat
  acc : Nat
  least : Nat
  deriving DecidableEq, Repr

/-- The characters of a token sequence, one token at a time: the escaped bytes are read
as UTF-8; `none` when they are not a valid encoding of code points (a `URIError`). -/
def utf8Go : Option Utf8Pending → List UriToken → Option (List Char)
  | none, [] => some []
  | some _, [] => none
  | none, .lit c :: ts => (utf8Go none ts).map (fun cs => c :: cs)
  | some _, .lit _ :: _ => none
  | none, .byte b :: ts =>
    if b < 0x80 then (utf8Go none ts).map (fun cs => Char.ofNat b :: cs)
    else if 0xC0 ≤ b ∧ b < 0xE0 then
      utf8Go (some { more := 1, acc := b - 0xC0, least := 0x80 }) ts
    else if 0xE0 ≤ b ∧ b < 0xF0 then
      utf8Go (some { more := 2, acc := b - 0xE0, least := 0x800 }) ts
    else if 0xF0 ≤ b ∧ b < 0xF8 then
      utf8Go (some { more := 3, acc := b - 0xF0, least := 0x10000 }) ts
    else none
  | some p, .byte b :: ts =>
    if isContinuation b then
      if p.more ≤ 1 then
        if p.least ≤ p.acc * 0x40 + (b - 0x80) ∧ p.acc * 0x40 + (b - 0x80) ≤ 0x10FFFF ∧
            ¬ (0xD800 ≤ p.acc * 0x40 + (b - 0x80) ∧ p.acc * 0x40 + (b - 0x80) ≤ 0xDFFF) then
          (utf8Go none ts).map (fun cs => Char.ofNat (p.acc * 0x40 + (b - 0x80)) :: cs)
        else none
      else utf8Go (some { p with more := p.more - 1, acc := p.acc * 0x40 + (b - 0x80) }) ts
    else none

/-- The characters of a token sequence. -/
def utf8Decode (ts : List UriToken) : Option (List Char) :=
  utf8Go none ts

/-- `decodeURIComponent(s)`; `none` is a thrown `URIError`. -/
def decodeURIComponent (s : List Char) : Option (List Char) :=
  (uriTokens s).bind utf8Decode

/-- `s.split("/")`. -/
def splitSlash : List Char → List (List Char)
  | [] => [[]]
  | c :: cs =>
    if c = '/' then [] :: splitSlash cs
    else
      match splitSlash cs with
      | seg :: segs => (c :: seg) :: segs
      | [] => [[c]]

/-- `segs.join("/")`. -/
def joinSlash : List (List Char) → List Char
  | [] => []
  | [seg] => seg
  | seg :: segs => seg ++ '/' :: joinSlash segs

/-- `s.replace(/\//g, "%2F")`. -/
def escapeSlash : List Char → List Char
  | [] => []
  | c :: cs => if c = '/' then '%' :: '2' :: 'F' :: escapeSlash cs else c :: escapeSlash cs

/-- The segments of a pathname decoded one by one, a decoded `/` escaped again; `none`
when one of them throws. -/
def decodeSegments : List (List Char) → Option (List (List Char))
  | [] => some []
  | seg :: segs =>
    match decodeURIComponent seg, decodeSegments segs with
    | some d, some ds => some (escapeSlash d :: ds)
    | _, _ => none

/-- The pathname the router matches: `location.pathname || "/"`, percent-decoded segment
by segment (the router's `decodePath`), and left as it is when the decoding throws. -/
def decodePath (pathname : String) : List Char :=
  let raw := if pathname.data.isEmpty then ['/'] else pathname.data
  match decodeSegments (splitSlash raw) with
  | some segs => joinSlash segs
  | none => raw

/-- A line terminator, which `.` in a regular expression does not match. -/
def isLineTerminator (c : Char) : Bool :=
  c.toNat == 0x0A || c.toNat == 0x0D || c.toNat == 0x2028 || c.toNat == 0x2029

/-- The router's `matchPath` for the paths of this table, on the decoded pathname.  The
path `*` is compiled to `^/(.*)$`: a leading `/` and no line terminator after it. -/
def matchPath (path : RoutePath) (pathname : String) : Bool :=
  match path with
  | .splat =>
    (decodePath pathname).head? == some '/' &&
      ((decodePath pathname).drop 1).all (fun c => !isLineTerminator c)
  | .segments segs =>
    (decodePath pathname).head? == some '/' && matchSegments segs (decodePath pathname)

/-- The element `<Routes>` selects for a pathname.  No two paths of the table other than
`*` match the same pathname, so the router's ranking picks the first match in order. -/
def Routes (pathname : String) : Option Element :=
  (routes.find? (fun r => matchPath r.1 pathname)).map (fun r => r.2)

/-- Rendering a route element for the session `user` at `location`: a view, or the
redirect of the guard. -/
def renderElement {σ : Type} (user : Option User) (location : Location σ) :
    Element → GuardResult σ View
  | .view v => .children v
  | .ProtectedRoute children =>
    match ProtectedRoute user location (renderElement user location children) with
    | .children r => r
    | .Navigate to_ state replace => .Navigate to_ state replace

/-- What `App` shows at `location` for the session `user`. -/
def App {σ : Type} (user : Option User) (location : Location σ) : Option (GuardResult σ View) :=
  (Routes location.pathname).map (renderElement user location)

/-- The element is wrapped in the route guard. -/
def Element.isProtected : Element → Bool
  | .ProtectedRoute _ => true
  | .view _ => false

/-- The first segment of the decoded pathname (after the leading `/`), in lower case. -/
def firstSegment (pathname : String) : List Char :=
  (((decodePath pathname).drop 1).takeWhile (fun c => c != '/')).map Char.toLower

/-- The literal a route path requires as first segment, in lower case: nothing for `/`,
`none` when the first segment is a parameter or the path is `*`. -/
def RoutePath.firstLiteral : RoutePath → Option (List Char)
  | .segments [] => some []
  | .segments (.static text :: _) => some (text.data.map Char.toLower)
  | _ => none

/-! ## The session state machine -/

/-- A session change of the identity provider. -/
inductive SessionEvent where
  | signedIn (u : User)
  | signedOut
  | expired
  | refreshed (displayName photoURL : Option String)
  deriving DecidableEq, Repr

/-- The event is a sign-in (or sign-up), which creates a session. -/
def SessionEvent.isSignIn : SessionEvent → Bool
  | .signedIn _ => true
  | _ => false

/-- Modelled from the spec: the session lifecycle of the external identity provider,
"created on successful sign-in/sign-up, destroyed on sign-out or external expiry"; a
token refresh changes the identity fields of a present session and creates none. -/
def providerSession (currentUser : Option User) : SessionEvent → Option User
  | .signedIn u => some u
  | .signedOut => none
  | .expired => none
  | .refreshed displayName photoURL =>
    currentUser.map (fun u => { u with displayName := displayName, photoURL := photoURL })

/-- The session as the application sees it: `auth.currentUser` and the `user` state of
a mounted component that observes it (`ProtectedRoute`, `AppNavbar`). -/
structure SessionState where
  currentUser : Option User
  user : Option User
  deriving DecidableEq, Repr

/-- Mounting an observer: `useState(auth.currentUser)`. -/
def SessionState.mount (currentUser : Option User) : SessionState :=
  { currentUser := currentUser, user := currentUser }

/-- The callback of `auth.onAuthStateChanged`: `(u) => setUser(u)`. -/
def onAuthStateChanged (u : Option User) (s : SessionState) : SessionState :=
  { s with user := u }

/-- One session change: the provider updates its session and delivers it to the
observer's callback. -/
def SessionState.step (s : SessionState) (ev : SessionEvent) : SessionState :=
  let u := providerSession s.currentUser ev
  onAuthStateChanged u { s with currentUser := u }

/-- The state after a sequence of session changes. -/
def SessionState.run (s : SessionState) (evs : List SessionEvent) : SessionState :=
  evs.foldl SessionState.step s

/-! ## The integer prefix of a string, in the words of the specification -/

/-- The value of a decimal digit character. -/
def digitOf (c : Char) : Nat :=
  c.toNat - '0'.toNat

/-- In the specification's words: `n` is the base-10 integer prefix of `s`.  After
optional leading white space and an optional sign comes the longest non-empty run of
decimal digits; `n` is its value in base 10, negated after a minus sign; the characters
that follow are ignored. -/
def HasLeadingInteger (s : String) (n : Int) : Prop :=
  ∃ ws sign digits rest : List Char,
    s.data = ws ++ sign ++ digits ++ rest ∧
    (∀ c ∈ ws, isStrWhiteSpace c = true) ∧
    (sign = [] ∨ sign = ['+'] ∨ sign = ['-']) ∧
    digits ≠ [] ∧
    (∀ c ∈ digits, isDigit10 c = true) ∧
    (∀ c, rest.head? = some c → isDigit10 c = false) ∧
    n = (if sign = ['-'] then -1 else 1) *
      ((Nat.ofDigits 10 (digits.reverse.map digitOf) : Nat) : Int)

/-! ## Sample inputs -/

/-- A session value. -/
def sampleUser : User :=
  { uid := "u1", displayName := some "Ada", email := some "ada@example.com", photoURL := none }

/-- A provider every call of which succeeds. -/
def acceptingProvider : Provider :=
  { signInWithEmailAndPassword := fun _ _ => .ok sampleUser
    signInWithPopup := .ok sampleUser
    createUserWithEmailAndPassword := fun _ _ => .ok sampleUser
    updateProfile := fun _ _ _ => .ok ()
    sendPasswordResetEmail := fun _ => .ok ()
    signOut := .ok () }

/-- A provider every call of which fails with message `m`. -/
def rejectingProvider (m : String) : Provider :=
  { signInWithEmailAndPassword := fun _ _ => .error m
    signInWithPopup := .error m
    createUserWithEmailAndPassword := fun _ _ => .error m
    updateProfile := fun _ _ _ => .error m
    sendPasswordResetEmail := fun _ => .error m
    signOut := .error m }

/-- A provider that creates accounts but rejects profile updates with message `m`. -/
def updateRejectingProvider (m : String) : Provider :=
  { acceptingProvider with updateProfile := fun _ _ _ => .error m }

/-- A location with the given pathname and state. -/
def locationAt {σ : Type} (pathname : String) (state : σ) : Location σ :=
  { pathname := pathname, search := "", hash := "", state := state, key := "default" }

/-- The state the guard attaches to its redirect at `pathname`: `{from: location}`. -/
def intentFrom (pathname : String) : NavState Unit :=
  { from_ := some (locationAt pathname ()), prefilledEmail := none, email := none }

/-! ## Lemmas on strings -/

theorem regexTestClass_iff (lo hi : Nat) (us : List Nat) :
    regexTestClass lo hi us = true ↔ ∃ u ∈ us, lo ≤ u ∧ u ≤ hi := by
  induction us with
  | nil => simp [regexTestClass]
  | cons u us ih => simp [regexTestClass, ih]

theorem mem_codeUnits (s : String) (u : Nat) :
    u ∈ codeUnits s ↔ ∃ c ∈ s.data, u ∈ utf16Units c := by
  simp [codeUnits, List.mem_flatten]

/-- A code unit below the surrogate range is the code of a character of the string. -/
theorem class_in_codeUnits_iff (lo hi : Nat) (hhi : hi < 0xD800) (s : String) :
    (∃ u ∈ codeUnits s, lo ≤ u ∧ u ≤ hi) ↔ ∃ c ∈ s.data, lo ≤ c.toNat ∧ c.toNat ≤ hi := by
  constructor
  · rintro ⟨u, hu, h1, h2⟩
    obtain ⟨c, hc, hcu⟩ := (mem_codeUnits s u).1 hu
    refine ⟨c, hc, ?_⟩
    unfold utf16Units at hcu
    split at hcu
    · simp at hcu
      subst hcu
      exact ⟨h1, h2⟩
    · simp at hcu
      omega
  · rintro ⟨c, hc, h1, h2⟩
    refine ⟨c.toNat, (mem_codeUnits s _).2 ⟨c, hc, ?_⟩, h1, h2⟩
    unfold utf16Units
    have : c.toNat < 0x10000 := by omega
    simp [this]

/-! ## C1 -/

/-- C1. For every password string `p`, `validatePassword(p).ok` is true if and only if
`p` contains an uppercase letter (a character in `A`..`Z`, the class of the source's
regular expression), contains a lowercase letter (`a`..`z`) and has length (JavaScript
`.length`) at least 6; `"abc123"`, `"ABCDEF"` and `"Ab1"` fail and `"Abcdef"` passes. -/
theorem validatePassword_ok_iff :
    (∀ p : String, (validatePassword p).ok = true ↔
      ((∃ c ∈ p.data, 'A'.toNat ≤ c.toNat ∧ c.toNat ≤ 'Z'.toNat) ∧
       (∃ c ∈ p.data, 'a'.toNat ≤ c.toNat ∧ c.toNat ≤ 'z'.toNat) ∧
       6 ≤ jsLength p)) ∧
    (validatePassword "abc123").ok = false ∧
    (validatePassword "ABCDEF").ok = false ∧
    (validatePassword "Ab1").ok = false ∧
    (validatePassword "Abcdef").ok = true := by
  refine ⟨?_, by decide, by decide, by decide, by decide⟩
  intro p
  have hU := class_in_codeUnits_iff 'A'.toNat 'Z'.toNat (by decide) p
  have hL := class_in_codeUnits_iff 'a'.toNat 'z'.toNat (by decide) p
  simp only [validatePassword, Bool.and_eq_true, regexTestClass_iff, decide_eq_true_eq, hU, hL,
    ge_iff_le, and_assoc]

/-! ## C2 -/

/-- C2. Route Guard decision: for every location `L`, `ProtectedRoute` with no session
returns a redirect to `/login` that replaces history and whose state is `{from: L}` (so
the intent carries the requested pathname of `L`), and with a session present it returns
its children unchanged, which is not a redirect. -/
theorem ProtectedRoute_decision {σ α : Type} (L : Location σ) (children : α) :
    ProtectedRoute none L children =
        .Navigate "/login" { from_ := some L, prefilledEmail := none, email := none } true ∧
      (∀ st : NavState σ, ProtectedRoute none L children = .Navigate "/login" st true →
        st.from_.map (fun l => l.pathname) = some L.pathname) ∧
      (∀ u : User, ProtectedRoute (some u) L children = .children children) ∧
      (∀ (u : User) to_ st replace,
        ProtectedRoute (some u) L children ≠ .Navigate to_ st replace) := by
  refine ⟨rfl, ?_, fun _ => rfl, ?_⟩
  · intro st h
    simp only [ProtectedRoute, GuardResult.Navigate.injEq, true_and, and_true] at h
    subst h
    rfl
  · intro u to_ st replace h
    simp [ProtectedRoute] at h

/-- C2 at `/profile`: with no session the intent carries `/profile`. -/
theorem ProtectedRoute_decision_witness :
    ProtectedRoute none (locationAt "/profile" ()) View.Profile =
        .Navigate "/login"
          { from_ := some (locationAt "/profile" ()), prefilledEmail := none, email := none }
          true ∧
      (some (locationAt "/profile" ()) : Option (Location Unit)).map (fun l => l.pathname) =
        some "/profile" :=
  ⟨(ProtectedRoute_decision (locationAt "/profile" ()) View.Profile).1,
    (ProtectedRoute_decision (locationAt "/profile" ()) View.Profile).2.1 _
      (ProtectedRoute_decision (locationAt "/profile" ()) View.Profile).1⟩

/-! ## C3 -/

theorem truthy_eq_true_iff (s : String) : truthy s = true ↔ s ≠ "" := by
  simp [truthy]

/-- The navigation target of `Login` when the state carries an intent with a non-empty
pathname. -/
theorem Login_from_intent {σ : Type} (location : Location (Option (NavState σ)))
    (L : Location σ) (h : location.state.bind (fun st => st.from_) = some L)
    (hp : L.pathname ≠ "") : Login.from_ location = L.pathname := by
  simp [Login.from_, h, (truthy_eq_true_iff L.pathname).2 hp]

/-- The navigation target of `Login` when the state carries no intent. -/
theorem Login_from_no_intent {σ : Type} (location : Location (Option (NavState σ)))
    (h : location.state.bind (fun st => st.from_) = none) : Login.from_ location = "/" := by
  simp [Login.from_, h]

/-- The source's `||` also takes the default for an intent whose pathname is the empty
string, which no router location has. -/
theorem Login_from_empty_pathname {σ : Type} (location : Location (Option (NavState σ)))
    (L : Location σ) (h : location.state.bind (fun st => st.from_) = some L)
    (hp : L.pathname = "") : Login.from_ location = "/" := by
  simp [Login.from_, h, hp, truthy]

/-- C3. Post-login navigation: for every location state the Login view receives, a
successful sign-in, by credentials (`loginWithEmail`) or by federated identity
(`loginWithGoogle`), performs exactly one navigation, replacing history, to the pathname
of the intent `state.from` when an intent is present (with a pathname, which for a router
location is never empty), and to `/` when none is present. -/
theorem Login_navigates_to_intent {σ : Type} (P : Provider)
    (location : Location (Option (NavState σ))) (email password : String) :
    (∀ L : Location σ, location.state.bind (fun st => st.from_) = some L → L.pathname ≠ "" →
      (∀ u, P.signInWithEmailAndPassword email password = .ok u →
        (Login.loginWithEmail P location email password).filter Effect.isNavigation =
          [.navigate L.pathname true]) ∧
      (∀ u, P.signInWithPopup = .ok u →
        (Login.loginWithGoogle P location).filter Effect.isNavigation =
          [.navigate L.pathname true])) ∧
    (location.state.bind (fun st => st.from_) = none →
      (∀ u, P.signInWithEmailAndPassword email password = .ok u →
        (Login.loginWithEmail P location email password).filter Effect.isNavigation =
          [.navigate "/" true]) ∧
      (∀ u, P.signInWithPopup = .ok u →
        (Login.loginWithGoogle P location).filter Effect.isNavigation =
          [.navigate "/" true])) := by
  refine ⟨fun L h hp => ⟨fun u hu => ?_, fun u hu => ?_⟩, fun h => ⟨fun u hu => ?_, fun u hu => ?_⟩⟩
  · simp [Login.loginWithEmail, hu, Effect.isNavigation, Login_from_intent location L h hp]
  · simp [Login.loginWithGoogle, hu, Effect.isNavigation, Login_from_intent location L h hp]
  · simp [Login.loginWithEmail, hu, Effect.isNavigation, Login_from_no_intent location h]
  · simp [Login.loginWithGoogle, hu, Effect.isNavigation, Login_from_no_intent location h]

/-- C3 after the guard's redirect from `/profile`, and on a plain visit of `/login`. -/
theorem Login_navigates_to_intent_witness :
    ((Login.loginWithEmail acceptingProvider
        (locationAt "/login" (some (intentFrom "/profile")))
        "ada@example.com" "Secret1").filter Effect.isNavigation =
        [.navigate "/profile" true]) ∧
    ((Login.loginWithGoogle acceptingProvider
        (locationAt "/login" (none : Option (NavState Unit)))).filter Effect.isNavigation =
        [.navigate "/" true]) :=
  ⟨((Login_navigates_to_intent acceptingProvider
      (locationAt "/login" (some (intentFrom "/profile")))
      "ada@example.com" "Secret1").1 (locationAt "/profile" ()) rfl (by decide)).1
      sampleUser rfl,
   ((Login_navigates_to_intent acceptingProvider
      (locationAt "/login" (none : Option (NavState Unit))) "" "").2 rfl).2 sampleUser rfl⟩

/-! ## C4 -/

theorem findSkill_eq_none (id : Option Int)
    (h : ∀ sk ∈ SKILLS, id ≠ some (sk.skillId : Int)) : findSkill id = none := by
  unfold findSkill
  rw [List.find?_eq_none]
  intro sk hsk
  simpa using h sk hsk

/-- C4 as stated fails: `1abc` is not the identifier of a catalog entry, yet `SkillDetails`
renders a catalog entry (the first) for it and not "Skill not found". -/
theorem SkillDetails_not_identifier_counterexample :
    (∀ sk ∈ SKILLS, "1abc" ≠ toString sk.skillId) ∧
      SkillDetails "1abc" { name := "", email := "" } ≠ .ok .skillNotFound ∧
      (SkillDetails "1abc" { name := "", email := "" }).toOption =
        (SKILLS.head?.map (fun sk => DetailView.details sk { name := "", email := "" })) := by
  refine ⟨by decide, ?_, rfl⟩
  intro h
  have h2 : (SkillDetails "1abc" { name := "", email := "" }).toOption ≠
      some .skillNotFound := by decide
  rw [h] at h2
  exact h2 rfl

/-- C4, amended. For every `:id` route parameter whose value under `parseInt(id, 10)` is
not the identifier of one of the six catalog entries (a parameter with no leading integer
included, for which it is `NaN`), `SkillDetails` renders "Skill not found" and does not
fail: the fields of the absent offering are not read. -/
theorem SkillDetails_not_found (paramsId : String) (form : BookingForm)
    (h : ∀ sk ∈ SKILLS, parseInt10 paramsId ≠ some (sk.skillId : Int)) :
    SkillDetails paramsId form = .ok .skillNotFound := by
  simp [SkillDetails, findSkill_eq_none _ h]

/-- C4 amended, at parameters that are no number, out of range, and negative. -/
theorem SkillDetails_not_found_witness :
    SkillDetails "guitar" { name := "Ada", email := "" } = .ok .skillNotFound ∧
      SkillDetails "7" { name := "", email := "" } = .ok .skillNotFound ∧
      SkillDetails "-1" { name := "", email := "" } = .ok .skillNotFound :=
  ⟨SkillDetails_not_found "guitar" _ (by decide), SkillDetails_not_found "7" _ (by decide),
    SkillDetails_not_found "-1" _ (by decide)⟩

/-! ## C5 -/

/-- C5. Booking form: for every form state, `handleSubmit` with an empty name or an empty
email produces the validation error, shows no success notification and leaves the form
state unchanged; with both fields non-empty it shows the success notification and resets
the form to empty name and email. -/
theorem handleSubmit_validates (form : BookingForm) :
    ((form.name = "" ∨ form.email = "") →
      SkillDetails.handleSubmit form =
          ([.preventDefault, .toastError "Please fill name and email"], form) ∧
        (∀ e ∈ (SkillDetails.handleSubmit form).1, e.isToastSuccess = false)) ∧
    ((form.name ≠ "" ∧ form.email ≠ "") →
      SkillDetails.handleSubmit form =
        ([.preventDefault, .toastSuccess "Session booked successfully!"],
          { name := "", email := "" })) := by
  constructor
  · intro h
    have hc : (!truthy form.name || !truthy form.email) = true := by
      rcases h with h | h <;> simp [truthy, h]
    simp [SkillDetails.handleSubmit, hc, Effect.isToastSuccess]
  · rintro ⟨h1, h2⟩
    have hc : (!truthy form.name || !truthy form.email) = false := by
      simp [truthy, h1, h2]
    simp [SkillDetails.handleSubmit, hc]

/-- C5 at a form without email and at a filled form. -/
theorem handleSubmit_validates_witness :
    SkillDetails.handleSubmit { name := "Ada", email := "" } =
        ([.preventDefault, .toastError "Please fill name and email"],
          { name := "Ada", email := "" }) ∧
      SkillDetails.handleSubmit { name := "Ada", email := "ada@example.com" } =
        ([.preventDefault, .toastSuccess "Session booked successfully!"],
          { name := "", email := "" }) :=
  ⟨((handleSubmit_validates { name := "Ada", email := "" }).1 (Or.inr rfl)).1,
    (handleSubmit_validates { name := "Ada", email := "ada@example.com" }).2
      ⟨by decide, by decide⟩⟩

/-! ## C6 -/

/-- C6 as stated fails: with the email and the password both empty, `loginWithEmail`
reports no local validation failure and calls the provider sign-in with the empty
credentials; the only error shown is the provider's. -/
theorem loginWithEmail_empty_fields_counterexample :
    ("" = "" ∨ "" = "") ∧
      Effect.call (.signInWithEmailAndPassword "" "") ∈
        Login.loginWithEmail (rejectingProvider "auth/invalid-email")
          (locationAt "/login" (none : Option (NavState Unit))) "" "" ∧
      Login.loginWithEmail (rejectingProvider "auth/invalid-email")
          (locationAt "/login" (none : Option (NavState Unit))) "" "" =
        [.preventDefault, .call (.signInWithEmailAndPassword "" ""),
          .toastError "Login failed: auth/invalid-email"] := by
  refine ⟨Or.inl rfl, by decide, by decide⟩

/-- C6, amended. `loginWithEmail` performs no local validation: for every login
submission, the email or the password empty or not, it calls the provider sign-in with
the entered email and password, and every error it reports is the provider's failure. -/
theorem loginWithEmail_always_calls_provider {σ : Type} (P : Provider)
    (location : Location (Option (NavState σ))) (email password : String) :
    (Login.loginWithEmail P location email password).take 2 =
        [.preventDefault, .call (.signInWithEmailAndPassword email password)] ∧
      (∀ msg, Effect.toastError msg ∈ Login.loginWithEmail P location email password →
        ∃ m, P.signInWithEmailAndPassword email password = .error m ∧
          msg = "Login failed: " ++ m) := by
  refine ⟨rfl, ?_⟩
  intro msg h
  unfold Login.loginWithEmail at h
  cases hP : P.signInWithEmailAndPassword email password with
  | ok u => simp [hP] at h
  | error m =>
    simp [hP] at h
    exact ⟨m, rfl, h⟩

/-- C6 amended, at an empty email with a provider that accepts. -/
theorem loginWithEmail_always_calls_provider_witness :
    (Login.loginWithEmail acceptingProvider
        (locationAt "/login" (none : Option (NavState Unit))) "" "Secret1").take 2 =
      [.preventDefault, .call (.signInWithEmailAndPassword "" "Secret1")] :=
  (loginWithEmail_always_calls_provider acceptingProvider
    (locationAt "/login" (none : Option (NavState Unit))) "" "Secret1").1

/-! ## C7 -/

theorem validatePassword_hasUpper (pw : String) :
    (validatePassword pw).hasUpper =
      decide (∃ c ∈ pw.data, 'A'.toNat ≤ c.toNat ∧ c.toNat ≤ 'Z'.toNat) := by
  rw [Bool.eq_iff_iff, decide_eq_true_eq,
    ← class_in_codeUnits_iff 'A'.toNat 'Z'.toNat (by decide) pw, ← regexTestClass_iff]
  rfl

theorem validatePassword_hasLower (pw : String) :
    (validatePassword pw).hasLower =
      decide (∃ c ∈ pw.data, 'a'.toNat ≤ c.toNat ∧ c.toNat ≤ 'z'.toNat) := by
  rw [Bool.eq_iff_iff, decide_eq_true_eq,
    ← class_in_codeUnits_iff 'a'.toNat 'z'.toNat (by decide) pw, ← regexTestClass_iff]
  rfl

theorem validatePassword_len (pw : String) :
    (validatePassword pw).len = decide (6 ≤ jsLength pw) := rfl

/-- C7. Signup password gate: for every password that fails the strength validator,
`signup` makes no account-creation or profile-update call and performs no navigation,
and the one error message it shows itemizes the three predicates, printing for each of
uppercase (`A`..`Z`), lowercase (`a`..`z`) and length >= 6 whether it holds of the
password; for every password that passes, the account-creation call is made with the
entered email and password. -/
theorem signup_password_gate (P : Provider) (name photoURL email password : String) :
    ((validatePassword password).ok = false →
      Signup.signup P name photoURL email password =
          [.preventDefault,
           .toastError ("Password invalid. Uppercase: " ++
             boolToString
               (decide (∃ c ∈ password.data, 'A'.toNat ≤ c.toNat ∧ c.toNat ≤ 'Z'.toNat)) ++
             ", Lowercase: " ++
             boolToString
               (decide (∃ c ∈ password.data, 'a'.toNat ≤ c.toNat ∧ c.toNat ≤ 'z'.toNat)) ++
             ", Length >=6: " ++ boolToString (decide (6 ≤ jsLength password)))] ∧
        (∀ e ∈ Signup.signup P name photoURL email password,
          e.isCall = false ∧ e.isNavigation = false)) ∧
    ((validatePassword password).ok = true →
      (Signup.signup P name photoURL email password).take 2 =
        [.preventDefault, .call (.createUserWithEmailAndPassword email password)]) := by
  constructor
  · intro h
    have hs : Signup.signup P name photoURL email password =
        [.preventDefault,
          .toastError ("Password invalid. Uppercase: " ++
            boolToString (validatePassword password).hasUpper ++ ", Lowercase: " ++
            boolToString (validatePassword password).hasLower ++ ", Length >=6: " ++
            boolToString (validatePassword password).len)] := by
      simp [Signup.signup, h]
    constructor
    · rw [hs, validatePassword_hasUpper, validatePassword_hasLower, validatePassword_len]
    · rw [hs]
      intro e he
      simp only [List.mem_cons, List.mem_singleton, List.not_mem_nil, or_false] at he
      rcases he with rfl | rfl <;> exact ⟨rfl, rfl⟩
  · intro h
    simp [Signup.signup, h]

/-- C7 at the passwords `abc123` (no uppercase letter) and `Abcdef`. -/
theorem signup_password_gate_witness :
    Signup.signup acceptingProvider "Ada" "" "ada@example.com" "abc123" =
        [.preventDefault,
         .toastError "Password invalid. Uppercase: false, Lowercase: true, Length >=6: true"] ∧
      (Signup.signup acceptingProvider "Ada" "" "ada@example.com" "Abcdef").take 2 =
        [.preventDefault, .call (.createUserWithEmailAndPassword "ada@example.com" "Abcdef")] :=
  ⟨((signup_password_gate acceptingProvider "Ada" "" "ada@example.com" "abc123").1
      (by decide)).1.trans (by decide),
    (signup_password_gate acceptingProvider "Ada" "" "ada@example.com" "Abcdef").2 (by decide)⟩

/-! ## C8 -/

/-- C8 as stated fails: when the federated sign-in of `Login` fails with the provider
message `popup closed by user`, the one notification shown is the fixed text
`Google login failed`, which does not carry the provider's message. -/
theorem loginWithGoogle_failure_counterexample :
    (rejectingProvider "popup closed by user").signInWithPopup =
        .error "popup closed by user" ∧
      Login.loginWithGoogle (rejectingProvider "popup closed by user")
          (locationAt "/login" (none : Option (NavState Unit))) =
        [.call .signInWithPopup, .toastError "Google login failed"] ∧
      ¬ ("popup closed by user".data <:+: "Google login failed".data) := by
  refine ⟨rfl, by decide, by decide⟩

/-- C8, amended. For every provider call a view makes that fails with provider message
`m`, the handler shows one error notification and performs no navigation.  The
notification is a fixed prefix followed by `m` verbatim for credential sign-in
(`Login failed: `), account creation and the profile update of signup
(`Signup failed: `) and password-reset dispatch (`Reset failed: `); it is a fixed text
without `m` for federated sign-in (`Google login failed`, `Google signup failed`) and for
the profile update of `UpdateProfile` (`Update failed`). -/
theorem provider_failure_notifications {σ : Type} (P : Provider) (m : String)
    (location : Location (Option (NavState σ)))
    (email password name photoURL photo : String) (u : User) :
    (P.signInWithEmailAndPassword email password = .error m →
      Login.loginWithEmail P location email password =
          [.preventDefault, .call (.signInWithEmailAndPassword email password),
            .toastError ("Login failed: " ++ m)] ∧
        (Login.loginWithEmail P location email password).filter Effect.isNavigation = []) ∧
    (P.signInWithPopup = .error m →
      Login.loginWithGoogle P location =
          [.call .signInWithPopup, .toastError "Google login failed"] ∧
        (Login.loginWithGoogle P location).filter Effect.isNavigation = [] ∧
        Signup.signupWithGoogle P =
          [.call .signInWithPopup, .toastError "Google signup failed"] ∧
        (Signup.signupWithGoogle P).filter Effect.isNavigation = []) ∧
    ((validatePassword password).ok = true →
      P.createUserWithEmailAndPassword email password = .error m →
      Signup.signup P name photoURL email password =
          [.preventDefault, .call (.createUserWithEmailAndPassword email password),
            .toastError ("Signup failed: " ++ m)] ∧
        (Signup.signup P name photoURL email password).filter Effect.isNavigation = []) ∧
    ((validatePassword password).ok = true →
      P.createUserWithEmailAndPassword email password = .ok u →
      P.updateProfile u name photoURL = .error m →
      Signup.signup P name photoURL email password =
          [.preventDefault, .call (.createUserWithEmailAndPassword email password),
            .call (.updateProfile u name photoURL), .toastError ("Signup failed: " ++ m)] ∧
        (Signup.signup P name photoURL email password).filter Effect.isNavigation = []) ∧
    (P.updateProfile u name photo = .error m →
      UpdateProfile.handleUpdate P (some u) name photo =
          [.preventDefault, .call (.updateProfile u name photo),
            .toastError "Update failed"] ∧
        (UpdateProfile.handleUpdate P (some u) name photo).filter Effect.isNavigation = []) ∧
    (email ≠ "" → P.sendPasswordResetEmail email = .error m →
      ForgotPassword.handleReset P email =
          [.preventDefault, .call (.sendPasswordResetEmail email),
            .toastError ("Reset failed: " ++ m)] ∧
        (ForgotPassword.handleReset P email).filter Effect.isNavigation = []) := by
  refine ⟨?_, ?_, ?_, ?_, ?_, ?_⟩
  · intro h
    simp [Login.loginWithEmail, h, Effect.isNavigation]
  · intro h
    simp [Login.loginWithGoogle, Signup.signupWithGoogle, h, Effect.isNavigation]
  · intro hv h
    simp [Signup.signup, hv, h, Effect.isNavigation]
  · intro hv h h2
    simp [Signup.signup, hv, h, h2, Effect.isNavigation]
  · intro h
    simp [UpdateProfile.handleUpdate, h, Effect.isNavigation]
  · intro he h
    simp [ForgotPassword.handleReset, (truthy_eq_true_iff email).2 he, h, Effect.isNavigation]

/-- C8 amended, at a rejected credential sign-in, a rejected federated sign-in, a
rejected profile update during signup and a rejected reset dispatch. -/
theorem provider_failure_notifications_witness :
    Login.loginWithEmail (rejectingProvider "auth/wrong-password")
        (locationAt "/login" (some (intentFrom "/profile"))) "ada@example.com" "Secret1" =
      [.preventDefault, .call (.signInWithEmailAndPassword "ada@example.com" "Secret1"),
        .toastError "Login failed: auth/wrong-password"] ∧
    Login.loginWithGoogle (rejectingProvider "auth/wrong-password")
        (locationAt "/login" (some (intentFrom "/profile"))) =
      [.call .signInWithPopup, .toastError "Google login failed"] ∧
    (Signup.signup (updateRejectingProvider "network") "Ada" "" "ada@example.com"
        "Secret1").filter Effect.isNavigation = [] ∧
    ForgotPassword.handleReset (rejectingProvider "auth/wrong-password") "ada@example.com" =
      [.preventDefault, .call (.sendPasswordResetEmail "ada@example.com"),
        .toastError "Reset failed: auth/wrong-password"] :=
  ⟨((provider_failure_notifications (rejectingProvider "auth/wrong-password")
        "auth/wrong-password" (locationAt "/login" (some (intentFrom "/profile")))
        "ada@example.com" "Secret1" "Ada" "" "" sampleUser).1 rfl).1.trans (by decide),
    ((provider_failure_notifications (rejectingProvider "auth/wrong-password")
        "auth/wrong-password" (locationAt "/login" (some (intentFrom "/profile")))
        "ada@example.com" "Secret1" "Ada" "" "" sampleUser).2.1 rfl).1,
    ((provider_failure_notifications (updateRejectingProvider "network") "network"
        (locationAt "/login" (some (intentFrom "/profile")))
        "ada@example.com" "Secret1" "Ada" "" "" sampleUser).2.2.2.1 (by decide) rfl rfl).2,
    ((provider_failure_notifications (rejectingProvider "auth/wrong-password")
        "auth/wrong-password" (locationAt "/login" (some (intentFrom "/profile")))
        "ada@example.com" "Secret1" "Ada" "" "" sampleUser).2.2.2.2.2 (by decide) rfl).1.trans
      (by decide)⟩

/-! ## C9 -/

theorem takeWhile_not_slash_of_all_slash (cs : List Char)
    (h : cs.all (fun c => c == '/') = true) : cs.takeWhile (fun c => c != '/') = [] := by
  cases cs with
  | nil => rfl
  | cons c cs =>
    simp only [List.all_cons, Bool.and_eq_true, beq_iff_eq] at h
    simp [List.takeWhile, h.1]

/-- A pathname matched by a route path begins with the literal first segment of that
path. -/
theorem firstSegment_of_matchPath (path : RoutePath) (pathname : String) (l : List Char)
    (hl : path.firstLiteral = some l) (hm : matchPath path pathname = true) :
    firstSegment pathname = l := by
  unfold firstSegment
  cases path with
  | splat => simp [RoutePath.firstLiteral] at hl
  | segments segs =>
    cases segs with
    | nil =>
      simp only [RoutePath.firstLiteral, Option.some.injEq] at hl
      subst hl
      simp only [matchPath, matchSegments, Bool.and_eq_true] at hm
      cases hd : decodePath pathname with
      | nil => rfl
      | cons c cs =>
        rw [hd] at hm
        have h2 := hm.2
        simp only [List.all_cons, Bool.and_eq_true] at h2
        simp [takeWhile_not_slash_of_all_slash cs h2.2]
    | cons seg rest =>
      cases seg with
      | param n => simp [RoutePath.firstLiteral] at hl
      | static text =>
        simp only [RoutePath.firstLiteral, Option.some.injEq] at hl
        subst hl
        simp only [matchPath, Bool.and_eq_true] at hm
        cases hd : decodePath pathname with
        | nil =>
          rw [hd] at hm
          simp at hm
        | cons c cs =>
          rw [hd] at hm
          have hc : c = '/' := by simpa using hm.1
          subst hc
          have h2 := hm.2
          simp only [matchSegments, Bool.and_eq_true, beq_iff_eq] at h2
          simpa using h2.1.2

/-- A route path does not match a pathname whose first segment differs from its literal
first segment. -/
theorem matchPath_false_of_firstSegment_ne (pathname : String) (r : RoutePath)
    (l : List Char) (hr : r.firstLiteral = some l) (hne : firstSegment pathname ≠ l) :
    matchPath r pathname = false := by
  cases h : matchPath r pathname with
  | false => rfl
  | true => exact absurd (firstSegment_of_matchPath r pathname l hr h) hne

/-- The router selects the element of the one path of the table, other than `*`, that
matches the pathname. -/
theorem Routes_of_match (pathname : String) (r : RoutePath × Element) (hr : r ∈ routes)
    (hns : r.1 ≠ .splat) (hm : matchPath r.1 pathname = true) :
    Routes pathname = some r.2 := by
  simp only [routes, List.mem_cons, List.mem_singleton, List.not_mem_nil, or_false] at hr
  rcases hr with rfl | rfl | rfl | rfl | rfl | rfl | rfl | rfl
  · have hs := firstSegment_of_matchPath (.segments []) pathname _ rfl hm
    simp [Routes, routes, List.find?, SkillDetailsWrapper, hm]
  · have hs := firstSegment_of_matchPath (.segments [.static "skill", .param "id"]) pathname _ rfl hm
    have h0 : matchPath (.segments []) pathname = false :=
      matchPath_false_of_firstSegment_ne pathname _ _ rfl (by rw [hs]; decide)
    simp [Routes, routes, List.find?, SkillDetailsWrapper, hm, h0]
  · have hs := firstSegment_of_matchPath (.segments [.static "login"]) pathname _ rfl hm
    have h0 : matchPath (.segments []) pathname = false :=
      matchPath_false_of_firstSegment_ne pathname _ _ rfl (by rw [hs]; decide)
    have h1 : matchPath (.segments [.static "skill", .param "id"]) pathname = false :=
      matchPath_false_of_firstSegment_ne pathname _ _ rfl (by rw [hs]; decide)
    simp [Routes, routes, List.find?, SkillDetailsWrapper, hm, h0, h1]
  · have hs := firstSegment_of_matchPath (.segments [.static "signup"]) pathname _ rfl hm
    have h0 : matchPath (.segments []) pathname = false :=
      matchPath_false_of_firstSegment_ne pathname _ _ rfl (by rw [hs]; decide)
    have h1 : matchPath (.segments [.static "skill", .param "id"]) pathname = false :=
      matchPath_false_of_firstSegment_ne pathname _ _ rfl (by rw [hs]; decide)
    have h2 : matchPath (.segments [.static "login"]) pathname = false :=
      matchPath_false_of_firstSegment_ne pathname _ _ rfl (by rw [hs]; decide)
    simp [Routes, routes, List.find?, SkillDetailsWrapper, hm, h0, h1, h2]
  · have hs := firstSegment_of_matchPath (.segments [.static "profile"]) pathname _ rfl hm
    have h0 : matchPath (.segments []) pathname = false :=
      matchPath_false_of_firstSegment_ne pathname _ _ rfl (by rw [hs]; decide)
    have h1 : matchPath (.segments [.static "skill", .param "id"]) pathname = false :=
      matchPath_false_of_firstSegment_ne pathname _ _ rfl (by rw [hs]; decide)
    have h2 : matchPath (.segments [.static "login"]) pathname = false :=
      matchPath_false_of_firstSegment_ne pathname _ _ rfl (by rw [hs]; decide)
    have h3 : matchPath (.segments [.static "signup"]) pathname = false :=
      matchPath_false_of_firstSegment_ne pathname _ _ rfl (by rw [hs]; decide)
    simp [Routes, routes, List.find?, SkillDetailsWrapper, hm, h0, h1, h2, h3]
  · have hs := firstSegment_of_matchPath (.segments [.static "update-profile"]) pathname _ rfl hm
    have h0 : matchPath (.segments []) pathname = false :=
      matchPath_false_of_firstSegment_ne pathname _ _ rfl (by rw [hs]; decide)
    have h1 : matchPath (.segments [.static "skill", .param "id"]) pathname = false :=
      matchPath_false_of_firstSegment_ne pathname _ _ rfl (by rw [hs]; decide)
    have h2 : matchPath (.segments [.static "login"]) pathname = false :=
      matchPath_false_of_firstSegment_ne pathname _ _ rfl (by rw [hs]; decide)
    have h3 : matchPath (.segments [.static "signup"]) pathname = false :=
      matchPath_false_of_firstSegment_ne pathname _ _ rfl (by rw [hs]; decide)
    have h4 : matchPath (.segments [.static "profile"]) pathname = false :=
      matchPath_false_of_firstSegment_ne pathname _ _ rfl (by rw [hs]; decide)
    simp [Routes, routes, List.find?, SkillDetailsWrapper, hm, h0, h1, h2, h3, h4]
  · have hs := firstSegment_of_matchPath (.segments [.static "forgot-password"]) pathname _ rfl hm
    have h0 : matchPath (.segments []) pathname = false :=
      matchPath_false_of_firstSegment_ne pathname _ _ rfl (by rw [hs]; decide)
    have h1 : matchPath (.segments [.static "skill", .param "id"]) pathname = false :=
      matchPath_false_of_firstSegment_ne pathname _ _ rfl (by rw [hs]; decide)
    have h2 : matchPath (.segments [.static "login"]) pathname = false :=
      matchPath_false_of_firstSegment_ne pathname _ _ rfl (by rw [hs]; decide)
    have h3 : matchPath (.segments [.static "signup"]) pathname = false :=
      matchPath_false_of_firstSegment_ne pathname _ _ rfl (by rw [hs]; decide)
    have h4 : matchPath (.segments [.static "profile"]) pathname = false :=
      matchPath_false_of_firstSegment_ne pathname _ _ rfl (by rw [hs]; decide)
    have h5 : matchPath (.segments [.static "update-profile"]) pathname = false :=
      matchPath_false_of_firstSegment_ne pathname _ _ rfl (by rw [hs]; decide)
    simp [Routes, routes, List.find?, SkillDetailsWrapper, hm, h0, h1, h2, h3, h4, h5]
  · exact absurd rfl hns

/-- A pathname no path of the table other than `*` matches, and `*` matches, is routed
to not-found. -/
theorem Routes_of_no_match (pathname : String)
    (h : ∀ r ∈ routes, r.1 ≠ .splat → matchPath r.1 pathname = false)
    (h7 : matchPath .splat pathname = true) :
    Routes pathname = some (.view .NotFound) := by
  have h0 := h (.segments [], .view .Home) (by simp [routes]) (by simp)
  have h1 := h (.segments [.static "skill", .param "id"], SkillDetailsWrapper)
    (by simp [routes]) (by simp)
  have h2 := h (.segments [.static "login"], .view .Login) (by simp [routes]) (by simp)
  have h3 := h (.segments [.static "signup"], .view .Signup) (by simp [routes]) (by simp)
  have h4 := h (.segments [.static "profile"], .ProtectedRoute (.view .Profile))
    (by simp [routes]) (by simp)
  have h5 := h (.segments [.static "update-profile"], .ProtectedRoute (.view .UpdateProfile))
    (by simp [routes]) (by simp)
  have h6 := h (.segments [.static "forgot-password"], .view .ForgotPassword)
    (by simp [routes]) (by simp)
  simp only at h0 h1 h2 h3 h4 h5 h6
  simp [Routes, routes, List.find?, h0, h1, h2, h3, h4, h5, h6, h7]

/-- A pathname no path of the table matches, `*` included, is routed nowhere. -/
theorem Routes_of_nothing (pathname : String)
    (h : ∀ r ∈ routes, matchPath r.1 pathname = false) : Routes pathname = none := by
  have hf : routes.find? (fun r => matchPath r.1 pathname) = none := by
    rw [List.find?_eq_none]
    intro r hr
    simp [h r hr]
  simp [Routes, hf]

/-- The router selects a route of the table that matches, or none when none does. -/
theorem Routes_selects (pathname : String) :
    (Routes pathname = none ∧ ∀ r ∈ routes, matchPath r.1 pathname = false) ∨
      ∃ r ∈ routes, matchPath r.1 pathname = true ∧ Routes pathname = some r.2 := by
  cases hf : routes.find? (fun r => matchPath r.1 pathname) with
  | some r =>
    exact Or.inr ⟨r, List.mem_of_find?_eq_some hf, by simpa using List.find?_some hf,
      by simp [Routes, hf]⟩
  | none =>
    refine Or.inl ⟨by simp [Routes, hf], ?_⟩
    intro r hr
    simpa using List.find?_eq_none.1 hf r hr

theorem splitSlash_append_slash (pre x : List Char) (h : '/' ∉ pre) :
    splitSlash (pre ++ '/' :: x) = pre :: splitSlash x := by
  induction pre with
  | nil => simp [splitSlash]
  | cons c pre ih =>
    have hc : c ≠ '/' := fun hc => h (by simp [hc])
    have hp : '/' ∉ pre := fun hp => h (List.mem_cons_of_mem c hp)
    simp [splitSlash, hc, ih hp]

theorem splitSlash_of_no_slash (x : List Char) (h : '/' ∉ x) : splitSlash x = [x] := by
  induction x with
  | nil => rfl
  | cons c x ih =>
    have hc : c ≠ '/' := fun hc => h (by simp [hc])
    have hp : '/' ∉ x := fun hp => h (List.mem_cons_of_mem c hp)
    simp [splitSlash, hc, ih hp]

theorem escapeSlash_no_slash (d : List Char) : '/' ∉ escapeSlash d := by
  induction d with
  | nil => simp [escapeSlash]
  | cons c d ih =>
    by_cases hc : c = '/'
    · simp [escapeSlash, hc, ih]
    · simp [escapeSlash, hc, ih, Ne.symm hc]

theorem escapeSlash_ne_nil (d : List Char) (h : d ≠ []) : escapeSlash d ≠ [] := by
  cases d with
  | nil => exact absurd rfl h
  | cons c d =>
    by_cases hc : c = '/' <;> simp [escapeSlash, hc]

theorem uriTokens_ne_nil (x : List Char) (ts : List UriToken) (hx : x ≠ [])
    (h : uriTokens x = some ts) : ts ≠ [] := by
  cases x with
  | nil => exact absurd rfl hx
  | cons c rest =>
    unfold uriTokens at h
    split at h
    · split at h
      · split at h
        · simp only [Option.some.injEq] at h
          rw [← h]
          simp
        · simp at h
      · simp at h
    · simp only [Option.map_eq_some'] at h
      obtain ⟨ts', _, rfl⟩ := h
      simp

theorem utf8Go_ne_nil (ts : List UriToken) :
    ∀ (st : Option Utf8Pending) (d : List Char), ts ≠ [] → utf8Go st ts = some d → d ≠ [] := by
  induction ts with
  | nil => exact fun _ _ h => absurd rfl h
  | cons t ts ih =>
    intro st d _ h
    have hrec : ∀ p, utf8Go (some p) ts = some d → d ≠ [] := by
      intro p hp
      cases ts with
      | nil => simp [utf8Go] at hp
      | cons t' ts' => exact ih (some p) d (List.cons_ne_nil _ _) hp
    have hcons : ∀ c, (utf8Go none ts).map (fun cs => c :: cs) = some d → d ≠ [] := by
      intro c hc
      obtain ⟨cs, _, rfl⟩ := Option.map_eq_some'.1 hc
      exact List.cons_ne_nil _ _
    cases st with
    | none =>
      cases t with
      | lit c =>
        rw [utf8Go] at h
        exact hcons c h
      | byte b =>
        rw [utf8Go] at h
        split at h
        · exact hcons _ h
        · split at h
          · exact hrec _ h
          · split at h
            · exact hrec _ h
            · split at h
              · exact hrec _ h
              · exact Option.noConfusion h
    | some p =>
      cases t with
      | lit c =>
        rw [utf8Go] at h
        exact Option.noConfusion h
      | byte b =>
        rw [utf8Go] at h
        split at h
        · split at h
          · split at h
            · exact hcons _ h
            · exact Option.noConfusion h
          · exact hrec _ h
        · exact Option.noConfusion h

theorem utf8Decode_ne_nil (ts : List UriToken) (d : List Char) (hts : ts ≠ [])
    (h : utf8Decode ts = some d) : d ≠ [] :=
  utf8Go_ne_nil ts none d hts h

theorem decodeURIComponent_ne_nil (x d : List Char) (hx : x ≠ [])
    (h : decodeURIComponent x = some d) : d ≠ [] := by
  simp only [decodeURIComponent, Option.bind_eq_some] at h
  obtain ⟨ts, h1, h2⟩ := h
  exact utf8Decode_ne_nil ts d (uriTokens_ne_nil x ts hx h1) h2

theorem matchSegments_skill (x : List Char) (hne : x ≠ []) (hs : '/' ∉ x) :
    matchSegments [.static "skill", .param "id"]
      ('/' :: 's' :: 'k' :: 'i' :: 'l' :: 'l' :: '/' :: x) = true := by
  have ht : x.takeWhile (fun c => c != '/') = x := by
    rw [List.takeWhile_eq_self_iff]
    intro c hc
    simp only [bne_iff_ne, ne_eq]
    rintro rfl
    exact hs hc
  have hdr : x.dropWhile (fun c => c != '/') = [] := by
    rw [List.dropWhile_eq_nil_iff]
    intro c hc
    simp only [bne_iff_ne, ne_eq]
    rintro rfl
    exact hs hc
  simp only [matchSegments, List.takeWhile, List.dropWhile]
  simp [ht, hdr, hne, matchSegments]

/-- The decoded form of `/skill/` followed by one non-empty segment is `/skill/`
followed by one non-empty segment. -/
theorem decodePath_skill_id (id : String) (hne : id ≠ "") (hs : '/' ∉ id.data) :
    ∃ x : List Char, x ≠ [] ∧ '/' ∉ x ∧
      decodePath ("/skill/" ++ id) = '/' :: 's' :: 'k' :: 'i' :: 'l' :: 'l' :: '/' :: x := by
  have hd : ("/skill/" ++ id).data = '/' :: 's' :: 'k' :: 'i' :: 'l' :: 'l' :: '/' :: id.data := by
    rw [String.data_append]
    rfl
  have hne2 : id.data ≠ [] := by
    intro h
    apply hne
    cases id
    simp_all
  have hsplit : splitSlash ('/' :: 's' :: 'k' :: 'i' :: 'l' :: 'l' :: '/' :: id.data) =
      [[], ['s', 'k', 'i', 'l', 'l'], id.data] := by
    have h1 := splitSlash_append_slash [] ('s' :: 'k' :: 'i' :: 'l' :: 'l' :: '/' :: id.data)
      (by simp)
    have h2 := splitSlash_append_slash ['s', 'k', 'i', 'l', 'l'] id.data (by decide)
    simp only [List.nil_append, List.cons_append] at h1 h2
    rw [h1, h2, splitSlash_of_no_slash id.data hs]
  have h0 : decodeURIComponent [] = some [] := rfl
  have hk : decodeURIComponent ['s', 'k', 'i', 'l', 'l'] = some ['s', 'k', 'i', 'l', 'l'] := by
    decide
  cases hdec : decodeURIComponent id.data with
  | none =>
    refine ⟨id.data, hne2, hs, ?_⟩
    unfold decodePath
    rw [hd]
    simp only [List.isEmpty_cons, Bool.false_eq_true, if_false]
    rw [hsplit]
    simp only [decodeSegments, h0, hk, hdec]
  | some d =>
    refine ⟨escapeSlash d,
      escapeSlash_ne_nil d (decodeURIComponent_ne_nil id.data d hne2 hdec),
      escapeSlash_no_slash d, ?_⟩
    unfold decodePath
    rw [hd]
    simp only [List.isEmpty_cons, Bool.false_eq_true, if_false]
    rw [hsplit]
    simp only [decodeSegments, h0, hk, hdec]
    simp [joinSlash, escapeSlash]

theorem matchPath_skill_id (id : String) (hne : id ≠ "") (hs : '/' ∉ id.data) :
    matchPath (.segments [.static "skill", .param "id"]) ("/skill/" ++ id) = true := by
  obtain ⟨x, hx, hsx, hd⟩ := decodePath_skill_id id hne hs
  simp only [matchPath, hd, List.head?_cons, beq_self_eq_true, Bool.true_and]
  exact matchSegments_skill x hx hsx

theorem splitSlash_ne_nil (x : List Char) : splitSlash x ≠ [] := by
  cases x with
  | nil => simp [splitSlash]
  | cons c cs =>
    rw [splitSlash]
    split
    · exact List.cons_ne_nil _ _
    · split <;> exact List.cons_ne_nil _ _

theorem decodeSegments_cons (seg : List Char) (segs : List (List Char))
    (out : List (List Char)) (h : decodeSegments (seg :: segs) = some out) :
    ∃ d ds, decodeURIComponent seg = some d ∧ decodeSegments segs = some ds ∧
      out = escapeSlash d :: ds := by
  rw [decodeSegments] at h
  split at h
  · rename_i d ds hd hds
    exact ⟨d, ds, hd, hds, (Option.some.inj h).symm⟩
  · exact Option.noConfusion h

theorem decodeSegments_ne_nil (S out : List (List Char)) (hS : S ≠ [])
    (h : decodeSegments S = some out) : out ≠ [] := by
  cases S with
  | nil => exact absurd rfl hS
  | cons seg segs =>
    obtain ⟨d, ds, _, _, rfl⟩ := decodeSegments_cons seg segs out h
    exact List.cons_ne_nil _ _

/-- The decoded form of an absolute pathname is absolute. -/
theorem decodePath_head (pathname : String) (h : pathname.data.head? = some '/') :
    (decodePath pathname).head? = some '/' := by
  cases hd : pathname.data with
  | nil => simp [hd] at h
  | cons c rest =>
    rw [hd] at h
    have hc : c = '/' := by simpa using h
    subst hc
    unfold decodePath
    rw [hd]
    simp only [List.isEmpty_cons, Bool.false_eq_true, if_false]
    have hsp : splitSlash ('/' :: rest) = [] :: splitSlash rest := by simp [splitSlash]
    rw [hsp]
    cases hdec : decodeSegments ([] :: splitSlash rest) with
    | none => rfl
    | some out =>
      obtain ⟨d, ds, hd0, hds, rfl⟩ := decodeSegments_cons [] (splitSlash rest) out hdec
      have hd1 : d = [] := by
        have : decodeURIComponent [] = some [] := rfl
        rw [this] at hd0
        exact (Option.some.inj hd0).symm
      subst hd1
      have hne := decodeSegments_ne_nil (splitSlash rest) ds (splitSlash_ne_nil rest) hds
      cases ds with
      | nil => exact absurd rfl hne
      | cons seg segs => simp [escapeSlash, joinSlash]

theorem matchPath_splat_of_no_terminator (pathname : String)
    (h : pathname.data.head? = some '/')
    (hlt : ∀ c ∈ decodePath pathname, isLineTerminator c = false) :
    matchPath .splat pathname = true := by
  simp only [matchPath, decodePath_head pathname h, beq_self_eq_true, Bool.true_and,
    List.all_eq_true, Bool.not_eq_true']
  intro c hc
  exact hlt c (List.mem_of_mem_drop hc)

theorem matchPath_splat_of_terminator (pathname : String)
    (h : pathname.data.head? = some '/')
    (hlt : ∃ c ∈ decodePath pathname, isLineTerminator c = true) :
    matchPath .splat pathname = false := by
  obtain ⟨c, hc, hct⟩ := hlt
  have hh := decodePath_head pathname h
  cases hd : decodePath pathname with
  | nil => simp [hd] at hh
  | cons a rest =>
    rw [hd] at hh hc
    have ha : a = '/' := by simpa using hh
    subst ha
    have hcr : c ∈ rest := by
      rcases List.mem_cons.1 hc with rfl | hcr
      · exact absurd hct (by decide)
      · exact hcr
    simp only [matchPath, hd, List.head?_cons, beq_self_eq_true, Bool.true_and, List.drop_succ_cons,
      List.drop_zero, List.all_eq_false]
    exact ⟨c, hcr, by simp [hct]⟩

/-- C9 as stated fails: none of the seven listed paths matches the pathname `/%0A`, whose
decoded form is `/` followed by a line feed, yet it is not routed to not-found: the path
`*` does not match it either and no element is selected. -/
theorem route_unmatched_counterexample :
    (∀ r ∈ routes, r.1 ≠ .splat → matchPath r.1 "/%0A" = false) ∧
      Routes "/%0A" ≠ some (.view .NotFound) ∧
      Routes "/%0A" = none ∧
      App none (locationAt "/%0A" ()) = none := by
  refine ⟨by decide, by decide, by decide, by decide⟩

/-- C9, amended. Route table: the router maps `/` to the catalog, `/skill/:id` to detail,
`/login`, `/signup`, `/profile`, `/update-profile`, `/forgot-password` to their views and
every other absolute pathname to not-found, unless its percent-decoded form contains a
line terminator, in which case no route matches and nothing is rendered; the elements of
`/skill/:id`, `/profile` and `/update-profile` are wrapped in the route guard and the
others are not, so with no session the pathnames matching those three paths, and only
they, yield the redirect to `/login`.  Matching is the router's: on the percent-decoded
pathname, literal segments without regard to case, trailing slashes allowed. -/
theorem route_table :
    Routes "/" = some (.view .Home) ∧
    (∀ id : String, id ≠ "" → '/' ∉ id.data →
      Routes ("/skill/" ++ id) = some SkillDetailsWrapper) ∧
    Routes "/login" = some (.view .Login) ∧
    Routes "/signup" = some (.view .Signup) ∧
    Routes "/profile" = some (.ProtectedRoute (.view .Profile)) ∧
    Routes "/update-profile" = some (.ProtectedRoute (.view .UpdateProfile)) ∧
    Routes "/forgot-password" = some (.view .ForgotPassword) ∧
    (∀ pathname : String, pathname.data.head? = some '/' →
      (∀ r ∈ routes, r.1 ≠ .splat → matchPath r.1 pathname = false) →
      ((∀ c ∈ decodePath pathname, isLineTerminator c = false) →
        Routes pathname = some (.view .NotFound)) ∧
      ((∃ c ∈ decodePath pathname, isLineTerminator c = true) →
        Routes pathname = none)) ∧
    SkillDetailsWrapper = .ProtectedRoute (.view .SkillDetails) ∧
    (routes.filter (fun r => r.2.isProtected)).map (fun r => r.1) =
      [.segments [.static "skill", .param "id"], .segments [.static "profile"],
        .segments [.static "update-profile"]] ∧
    (∀ (σ : Type) (L : Location σ),
      ((matchPath (.segments [.static "skill", .param "id"]) L.pathname = true ∨
          matchPath (.segments [.static "profile"]) L.pathname = true ∨
          matchPath (.segments [.static "update-profile"]) L.pathname = true) →
        App none L = some (.Navigate "/login"
          { from_ := some L, prefilledEmail := none, email := none } true)) ∧
      (¬ (matchPath (.segments [.static "skill", .param "id"]) L.pathname = true ∨
          matchPath (.segments [.static "profile"]) L.pathname = true ∨
          matchPath (.segments [.static "update-profile"]) L.pathname = true) →
        ∀ to_ st replace, App none L ≠ some (.Navigate to_ st replace))) := by
  refine ⟨by decide, ?_, by decide, by decide, by decide, by decide, by decide,
    ?_, rfl, by decide, ?_⟩
  · intro id hne hs
    exact Routes_of_match _ (.segments [.static "skill", .param "id"], SkillDetailsWrapper)
      (by simp [routes]) (by simp) (matchPath_skill_id id hne hs)
  · intro pathname habs hno
    constructor
    · intro hlt
      exact Routes_of_no_match pathname hno
        (matchPath_splat_of_no_terminator pathname habs hlt)
    · intro hlt
      apply Routes_of_nothing
      intro r hr
      by_cases hsp : r.1 = .splat
      · rw [hsp]
        exact matchPath_splat_of_terminator pathname habs hlt
      · exact hno r hr hsp
  · intro σ L
    constructor
    · intro h
      rcases h with h | h | h
      · have hR := Routes_of_match L.pathname
          (.segments [.static "skill", .param "id"], SkillDetailsWrapper)
          (by simp [routes]) (by simp) h
        simp [App, hR, renderElement, ProtectedRoute, SkillDetailsWrapper]
      · have hR := Routes_of_match L.pathname
          (.segments [.static "profile"], .ProtectedRoute (.view .Profile))
          (by simp [routes]) (by simp) h
        simp [App, hR, renderElement, ProtectedRoute]
      · have hR := Routes_of_match L.pathname
          (.segments [.static "update-profile"], .ProtectedRoute (.view .UpdateProfile))
          (by simp [routes]) (by simp) h
        simp [App, hR, renderElement, ProtectedRoute]
    · intro hneg to_ st replace
      rcases Routes_selects L.pathname with ⟨hnone, _⟩ | ⟨r, hr, hm, hR⟩
      · simp [App, hnone]
      · simp only [routes, List.mem_cons, List.mem_singleton, List.not_mem_nil, or_false] at hr
        rcases hr with rfl | rfl | rfl | rfl | rfl | rfl | rfl | rfl
        · simp [App, hR, renderElement]
        · exact absurd (Or.inl hm) hneg
        · simp [App, hR, renderElement]
        · simp [App, hR, renderElement]
        · exact absurd (Or.inr (Or.inl hm)) hneg
        · exact absurd (Or.inr (Or.inr hm)) hneg
        · simp [App, hR, renderElement]
        · simp [App, hR, renderElement]

/-- C9 amended, at `/skill/3`, at the escaped spelling `/%70rofile` of `/profile` without
a session, at the escaped spelling `/%6Cogin` of `/login`, and at an unmatched
pathname. -/
theorem route_table_witness :
    Routes ("/skill/" ++ "3") = some SkillDetailsWrapper ∧
      App none (locationAt "/%70rofile" ()) =
        some (.Navigate "/login"
          { from_ := some (locationAt "/%70rofile" ()), prefilledEmail := none,
            email := none }
          true) ∧
      (∀ to_ st replace,
        App none (locationAt "/%6Cogin" ()) ≠ some (.Navigate to_ st replace)) ∧
      Routes "/skills" = some (.view .NotFound) :=
  ⟨route_table.2.1 "3" (by decide) (by decide),
    (route_table.2.2.2.2.2.2.2.2.2.2 Unit (locationAt "/%70rofile" ())).1
      (Or.inr (Or.inl (by decide))),
    (route_table.2.2.2.2.2.2.2.2.2.2 Unit (locationAt "/%6Cogin" ())).2 (by decide),
    (route_table.2.2.2.2.2.2.2.1 "/skills" (by decide) (by decide)).1 (by decide)⟩

/-! ## C10 -/

/-- C10 as stated fails: for the non-empty email `ada@example.com`, when the provider's
reset dispatch is rejected, `handleReset` calls the dispatch, reports the failure and
schedules no redirect. -/
theorem handleReset_failure_counterexample :
    "ada@example.com" ≠ "" ∧
      ForgotPassword.handleReset (rejectingProvider "auth/user-not-found")
          "ada@example.com" =
        [.preventDefault, .call (.sendPasswordResetEmail "ada@example.com"),
          .toastError "Reset failed: auth/user-not-found"] ∧
      Effect.setTimeoutHref "https://mail.google.com" 1000 ∉
        ForgotPassword.handleReset (rejectingProvider "auth/user-not-found")
          "ada@example.com" := by
  refine ⟨by decide, by decide, by decide⟩

/-- C10, amended. Password reset: for an empty email `handleReset` reports an error,
makes no provider call and schedules no redirect; for every non-empty email it calls the
provider's reset dispatch with that email and, when the dispatch succeeds, then schedules
a redirect to the fixed URL `https://mail.google.com` after the fixed delay of 1000 ms,
the target and the delay being the same whatever the email address is; when the dispatch
fails it reports the failure and schedules no redirect. -/
theorem handleReset_redirect (P : Provider) (email : String) :
    (email = "" →
      ForgotPassword.handleReset P email = [.preventDefault, .toastError "Enter email"]) ∧
    (email ≠ "" →
      (ForgotPassword.handleReset P email).take 2 =
          [.preventDefault, .call (.sendPasswordResetEmail email)] ∧
        (P.sendPasswordResetEmail email = .ok () →
          ForgotPassword.handleReset P email =
            [.preventDefault, .call (.sendPasswordResetEmail email),
              .toastSuccess "Reset email sent. Redirecting to Gmail...",
              .setTimeoutHref "https://mail.google.com" 1000]) ∧
        (∀ m, P.sendPasswordResetEmail email = .error m →
          ForgotPassword.handleReset P email =
            [.preventDefault, .call (.sendPasswordResetEmail email),
              .toastError ("Reset failed: " ++ m)])) := by
  constructor
  · intro h
    subst h
    simp [ForgotPassword.handleReset, truthy]
  · intro he
    have ht := (truthy_eq_true_iff email).2 he
    refine ⟨?_, ?_, ?_⟩
    · simp [ForgotPassword.handleReset, ht]
    · intro h
      simp [ForgotPassword.handleReset, ht, h]
    · intro m h
      simp [ForgotPassword.handleReset, ht, h]

/-- C10 amended, at the empty email and at two different addresses with a provider that
accepts: the same target and delay. -/
theorem handleReset_redirect_witness :
    ForgotPassword.handleReset acceptingProvider "" =
        [.preventDefault, .toastError "Enter email"] ∧
      ForgotPassword.handleReset acceptingProvider "ada@example.com" =
        [.preventDefault, .call (.sendPasswordResetEmail "ada@example.com"),
          .toastSuccess "Reset email sent. Redirecting to Gmail...",
          .setTimeoutHref "https://mail.google.com" 1000] ∧
      ForgotPassword.handleReset acceptingProvider "bob@mail.example" =
        [.preventDefault, .call (.sendPasswordResetEmail "bob@mail.example"),
          .toastSuccess "Reset email sent. Redirecting to Gmail...",
          .setTimeoutHref "https://mail.google.com" 1000] :=
  ⟨(handleReset_redirect acceptingProvider "").1 rfl,
    ((handleReset_redirect acceptingProvider "ada@example.com").2 (by decide)).2.1 rfl,
    ((handleReset_redirect acceptingProvider "bob@mail.example").2 (by decide)).2.1 rfl⟩

/-! ## C11 -/

/-- C11. The catalog `SKILLS` is a fixed sequence of exactly six offerings whose
identifiers are pairwise distinct, so the lookup of the Detail view is well defined: for
the identifier of a catalog entry it returns that entry, whatever it returns is a catalog
entry with the identifier asked for, two entries with the same identifier are the same
entry, and for every other identifier (`NaN`, which is `none`, included) it returns
nothing. -/
theorem SKILLS_lookup :
    SKILLS.length = 6 ∧
      (SKILLS.map (fun sk => sk.skillId)).Nodup ∧
      (∀ sk ∈ SKILLS, ∀ sk' ∈ SKILLS, sk.skillId = sk'.skillId → sk = sk') ∧
      (∀ sk ∈ SKILLS, findSkill (some (sk.skillId : Int)) = some sk) ∧
      (∀ (id : Option Int) (sk : Skill), findSkill id = some sk →
        sk ∈ SKILLS ∧ id = some (sk.skillId : Int)) ∧
      (∀ id : Option Int, (∀ sk ∈ SKILLS, id ≠ some (sk.skillId : Int)) →
        findSkill id = none) := by
  refine ⟨rfl, by decide, by decide, by decide, ?_, findSkill_eq_none⟩
  intro id sk h
  unfold findSkill at h
  refine ⟨List.mem_of_find?_eq_some h, ?_⟩
  simpa using List.find?_some h

/-- C11 at the identifiers 3 (an entry), 7, 0 and `NaN` (no entry). -/
theorem SKILLS_lookup_witness :
    (findSkill (some 3)).map (fun sk => sk.skillName) = some "Intro to Web Development" ∧
      findSkill (some 7) = none ∧ findSkill (some 0) = none ∧ findSkill none = none :=
  ⟨by
      cases h : findSkill (some 3) with
      | none => exact absurd h (by decide)
      | some sk =>
        have h2 := (SKILLS_lookup.2.2.2.2.1 (some 3) sk h)
        have h3 : (sk.skillId : Int) = 3 := by simpa using h2.2.symm
        have h4 := h2.1
        simp only [SKILLS, List.mem_cons, List.mem_singleton, List.not_mem_nil, or_false] at h4
        rcases h4 with rfl | rfl | rfl | rfl | rfl | rfl <;> simp_all,
    SKILLS_lookup.2.2.2.2.2 (some 7) (by decide),
    SKILLS_lookup.2.2.2.2.2 (some 0) (by decide),
    SKILLS_lookup.2.2.2.2.2 none (by decide)⟩

/-! ## C12 -/

/-- A session change other than a sign-in leaves an absent session absent. -/
theorem step_absent (s : SessionState) (ev : SessionEvent)
    (hs : s.currentUser = none ∧ s.user = none) (hev : ev.isSignIn = false) :
    (s.step ev).currentUser = none ∧ (s.step ev).user = none := by
  cases ev with
  | signedIn u => simp [SessionEvent.isSignIn] at hev
  | signedOut => exact ⟨rfl, rfl⟩
  | expired => exact ⟨rfl, rfl⟩
  | refreshed d p =>
    simp [SessionState.step, onAuthStateChanged, providerSession, hs.1]

/-- Absence of the session is invariant along session changes without a sign-in. -/
theorem run_absent (evs : List SessionEvent) (s : SessionState)
    (hs : s.currentUser = none ∧ s.user = none) (hno : ∀ ev ∈ evs, ev.isSignIn = false) :
    (s.run evs).currentUser = none ∧ (s.run evs).user = none := by
  induction evs generalizing s with
  | nil => exact hs
  | cons ev evs ih =>
    have h1 := step_absent s ev hs (hno ev (List.mem_cons_self ev evs))
    exact ih (s.step ev) h1 (fun e he => hno e (List.mem_cons_of_mem ev he))

/-- Without a session the application answers a pathname of a guarded route with the
redirect to `/login`. -/
theorem App_none_of_protected {σ : Type} (L : Location σ)
    (h : matchPath (.segments [.static "skill", .param "id"]) L.pathname = true ∨
      matchPath (.segments [.static "profile"]) L.pathname = true ∨
      matchPath (.segments [.static "update-profile"]) L.pathname = true) :
    App none L = some (.Navigate "/login"
      { from_ := some L, prefilledEmail := none, email := none } true) := by
  rcases h with h | h | h
  · have hR := Routes_of_match L.pathname
      (.segments [.static "skill", .param "id"], SkillDetailsWrapper)
      (by simp [routes]) (by simp) h
    simp [App, hR, renderElement, ProtectedRoute, SkillDetailsWrapper]
  · have hR := Routes_of_match L.pathname
      (.segments [.static "profile"], .ProtectedRoute (.view .Profile))
      (by simp [routes]) (by simp) h
    simp [App, hR, renderElement, ProtectedRoute]
  · have hR := Routes_of_match L.pathname
      (.segments [.static "update-profile"], .ProtectedRoute (.view .UpdateProfile))
      (by simp [routes]) (by simp) h
    simp [App, hR, renderElement, ProtectedRoute]

/-- C12. Sign-out: in the session state machine whose events are the provider's session
changes, a successful sign-out (the call `handleLogout` makes) takes the session from
present, where the guard renders its children, to absent; and in every state reached
after it by session changes none of which is a sign-in, the guard, mounted before or
after, answers every request with the redirect to `/login` carrying the requested
location, never with its children, and so does the application for every pathname of a
guarded route. -/
theorem signOut_then_guard_redirects {σ α : Type} (P : Provider) (s : SessionState)
    (u : User) (evs : List SessionEvent) (L : Location σ) (children : α)
    (hpresent : s.currentUser = some u ∧ s.user = some u)
    (hno : ∀ ev ∈ evs, ev.isSignIn = false) :
    (P.signOut = .ok () →
      AppNavbar.handleLogout P = [.call .signOut, .toastSuccess "Logged out"]) ∧
    ProtectedRoute s.user L children = .children children ∧
    (s.step .signedOut).currentUser = none ∧ (s.step .signedOut).user = none ∧
    ((s.step .signedOut).run evs).currentUser = none ∧
    ProtectedRoute ((s.step .signedOut).run evs).user L children =
      .Navigate "/login" { from_ := some L, prefilledEmail := none, email := none } true ∧
    ProtectedRoute (SessionState.mount ((s.step .signedOut).run evs).currentUser).user L
        children =
      .Navigate "/login" { from_ := some L, prefilledEmail := none, email := none } true ∧
    (∀ c : α, ProtectedRoute ((s.step .signedOut).run evs).user L children ≠ .children c) ∧
    ((matchPath (.segments [.static "skill", .param "id"]) L.pathname = true ∨
        matchPath (.segments [.static "profile"]) L.pathname = true ∨
        matchPath (.segments [.static "update-profile"]) L.pathname = true) →
      App ((s.step .signedOut).run evs).user L =
        some (.Navigate "/login"
          { from_ := some L, prefilledEmail := none, email := none } true)) := by
  have h0 : (s.step .signedOut).currentUser = none ∧ (s.step .signedOut).user = none :=
    ⟨rfl, rfl⟩
  have hr := run_absent evs (s.step .signedOut) h0 hno
  refine ⟨?_, ?_, h0.1, h0.2, hr.1, ?_, ?_, ?_, ?_⟩
  · intro h
    simp [AppNavbar.handleLogout, h]
  · rw [hpresent.2]
    rfl
  · rw [hr.2]
    rfl
  · rw [hr.1]
    rfl
  · intro c
    rw [hr.2]
    simp [ProtectedRoute]
  · intro h
    rw [hr.2]
    exact App_none_of_protected L h

/-- C12 after a sign-out followed by an expiry and a token refresh, at `/profile`. -/
theorem signOut_then_guard_redirects_witness :
    ProtectedRoute
        (((SessionState.mount (some sampleUser)).step .signedOut).run
          [.expired, .refreshed (some "Ada L.") none]).user
        (locationAt "/profile" ()) View.Profile =
      .Navigate "/login"
        { from_ := some (locationAt "/profile" ()), prefilledEmail := none, email := none }
        true :=
  (signOut_then_guard_redirects acceptingProvider (SessionState.mount (some sampleUser))
    sampleUser [.expired, .refreshed (some "Ada L.") none] (locationAt "/profile" ())
    View.Profile ⟨rfl, rfl⟩ (by decide)).2.2.2.2.2.1

/-! ## C13 -/

theorem dropWhile_append_stop (p : Char → Bool) (ws tail : List Char)
    (h1 : ∀ c ∈ ws, p c = true) (h2 : ∀ c, tail.head? = some c → p c = false) :
    (ws ++ tail).dropWhile p = tail := by
  induction ws with
  | nil =>
    cases tail with
    | nil => rfl
    | cons c t => simp [List.dropWhile, h2 c rfl]
  | cons w ws ih =>
    have hw : p w = true := h1 w (List.mem_cons_self w ws)
    simp only [List.cons_append, List.dropWhile, hw]
    exact ih (fun c hc => h1 c (List.mem_cons_of_mem w hc))

theorem takeWhile_append_stop (p : Char → Bool) (ws tail : List Char)
    (h1 : ∀ c ∈ ws, p c = true) (h2 : ∀ c, tail.head? = some c → p c = false) :
    (ws ++ tail).takeWhile p = ws := by
  induction ws with
  | nil =>
    cases tail with
    | nil => rfl
    | cons c t => simp [List.takeWhile, h2 c rfl]
  | cons w ws ih =>
    have hw : p w = true := h1 w (List.mem_cons_self w ws)
    simp only [List.cons_append, List.takeWhile, hw]
    exact congrArg (List.cons w) (ih (fun c hc => h1 c (List.mem_cons_of_mem w hc)))

theorem head?_dropWhile_stop (p : Char → Bool) (l : List Char) (c : Char)
    (h : (l.dropWhile p).head? = some c) : p c = false := by
  induction l with
  | nil => simp at h
  | cons a l ih =>
    cases ha : p a with
    | true =>
      simp only [List.dropWhile, ha] at h
      exact ih h
    | false =>
      simp only [List.dropWhile, ha, List.head?_cons, Option.some.injEq] at h
      rw [← h]
      exact ha

theorem takeWhile_all (p : Char → Bool) (l : List Char) :
    ∀ c ∈ l.takeWhile p, p c = true := by
  induction l with
  | nil => simp
  | cons a l ih =>
    cases ha : p a with
    | true =>
      simp only [List.takeWhile, ha, List.mem_cons]
      rintro c (rfl | hc)
      · exact ha
      · exact ih c hc
    | false => simp [List.takeWhile, ha]

/-- The fold of `parseInt` over a digit run is its value in base 10. -/
theorem digitsValue_eq_ofDigits (ds : List Char) :
    digitsValue ds = Nat.ofDigits 10 (ds.reverse.map digitOf) := by
  unfold digitsValue
  induction ds using List.reverseRecOn with
  | nil => simp
  | append_singleton ds d ih =>
    rw [List.foldl_append, ih]
    simp only [List.foldl_cons, List.foldl_nil, List.reverse_append, List.reverse_cons,
      List.reverse_nil, List.nil_append, List.singleton_append, List.map_cons,
      Nat.ofDigits_cons, digitOf]
    omega

theorem isDigit10_not_space (c : Char) (h : isDigit10 c = true) :
    isStrWhiteSpace c = false := by
  simp only [isDigit10, Bool.and_eq_true, decide_eq_true_eq] at h
  have h1 : '0'.toNat = 48 := rfl
  have h2 : '9'.toNat = 57 := rfl
  rw [h1, h2] at h
  simp only [isStrWhiteSpace, List.contains, List.elem, Bool.or_eq_false_iff,
    Bool.and_eq_false_iff, decide_eq_false_iff_not]
  refine ⟨?_, Or.inl (by omega)⟩
  repeat (first | rfl | (rw [show (c.toNat == _) = false from by simp; omega]))


theorem parseInt10_minus (s : String) (r : List Char)
    (hS : s.data.dropWhile isStrWhiteSpace = '-' :: r) :
    parseInt10 s = if (r.takeWhile isDigit10).isEmpty then none
      else some (-1 * (digitsValue (r.takeWhile isDigit10) : Int)) := by
  simp only [parseInt10, hS]

theorem parseInt10_plus (s : String) (r : List Char)
    (hS : s.data.dropWhile isStrWhiteSpace = '+' :: r) :
    parseInt10 s = if (r.takeWhile isDigit10).isEmpty then none
      else some (1 * (digitsValue (r.takeWhile isDigit10) : Int)) := by
  simp only [parseInt10, hS]
  rfl

theorem parseInt10_unsigned (s : String) (S : List Char)
    (hS : s.data.dropWhile isStrWhiteSpace = S)
    (hm : ∀ r, S ≠ '-' :: r) (hp : ∀ r, S ≠ '+' :: r) :
    parseInt10 s = if (S.takeWhile isDigit10).isEmpty then none
      else some (1 * (digitsValue (S.takeWhile isDigit10) : Int)) := by
  simp only [parseInt10, hS]

/-- From a result of `parseInt` to the decomposition of the string. -/
theorem HasLeadingInteger_of_parseInt10 (s : String) (n : Int) (h : parseInt10 s = some n) :
    HasLeadingInteger s n := by
  have hsplit : s.data = s.data.takeWhile isStrWhiteSpace ++
      s.data.dropWhile isStrWhiteSpace := (List.takeWhile_append_dropWhile _ _).symm
  have hws := takeWhile_all isStrWhiteSpace s.data
  -- the three shapes of the string after the white space
  have key : ∀ (sign r : List Char) (sg : Int),
      s.data.dropWhile isStrWhiteSpace = sign ++ r →
      (sign = [] ∨ sign = ['+'] ∨ sign = ['-']) →
      sg = (if sign = ['-'] then -1 else 1) →
      parseInt10 s = (if (r.takeWhile isDigit10).isEmpty then none
        else some (sg * (digitsValue (r.takeWhile isDigit10) : Int))) →
      HasLeadingInteger s n := by
    intro sign r sg hS hsign hsg hp
    rw [h] at hp
    by_cases he : (r.takeWhile isDigit10).isEmpty = true
    · simp [he] at hp
    · simp only [he, Bool.false_eq_true, if_false, Option.some.injEq] at hp
      refine ⟨s.data.takeWhile isStrWhiteSpace, sign, r.takeWhile isDigit10,
        r.dropWhile isDigit10, ?_, hws, hsign, ?_, takeWhile_all isDigit10 r,
        head?_dropWhile_stop isDigit10 r, ?_⟩
      · rw [List.append_assoc, List.append_assoc, List.takeWhile_append_dropWhile, ← hS]
        exact hsplit
      · intro h0
        exact he (by simp [h0])
      · rw [hp, hsg, digitsValue_eq_ofDigits]
  cases hS : s.data.dropWhile isStrWhiteSpace with
  | nil =>
    exact key [] [] 1 (by simp [hS]) (Or.inl rfl) (by simp)
      (parseInt10_unsigned s [] hS (by simp) (by simp))
  | cons c r =>
    by_cases hm : c = '-'
    · subst hm
      exact key ['-'] r (-1) (by simp [hS]) (Or.inr (Or.inr rfl)) (by simp)
        (parseInt10_minus s r hS)
    · by_cases hp : c = '+'
      · subst hp
        exact key ['+'] r 1 (by simp [hS]) (Or.inr (Or.inl rfl)) (by decide)
          (parseInt10_plus s r hS)
      · exact key [] (c :: r) 1 (by simp [hS]) (Or.inl rfl) (by simp)
          (parseInt10_unsigned s (c :: r) hS (fun _ h' => hm (List.cons.inj h').1)
            (fun _ h' => hp (List.cons.inj h').1))

/-- From the decomposition of the string to the result of `parseInt`. -/
theorem parseInt10_of_HasLeadingInteger (s : String) (n : Int) (h : HasLeadingInteger s n) :
    parseInt10 s = some n := by
  obtain ⟨ws, sign, digits, rest, hd, hws, hsign, hne, hdig, hrest, hn⟩ := h
  obtain ⟨d, ds, rfl⟩ := List.exists_cons_of_ne_nil hne
  have hdd : isDigit10 d = true := hdig d (List.mem_cons_self d ds)
  have htake : ((d :: ds) ++ rest).takeWhile isDigit10 = d :: ds :=
    takeWhile_append_stop isDigit10 (d :: ds) rest hdig hrest
  have hS : s.data.dropWhile isStrWhiteSpace = sign ++ ((d :: ds) ++ rest) := by
    rw [hd, List.append_assoc, List.append_assoc]
    apply dropWhile_append_stop isStrWhiteSpace ws _ hws
    intro c hc
    rcases hsign with rfl | rfl | rfl
    · simp only [List.nil_append, List.cons_append, List.head?_cons, Option.some.injEq] at hc
      rw [← hc]
      exact isDigit10_not_space d hdd
    · simp only [List.cons_append, List.head?_cons, Option.some.injEq] at hc
      rw [← hc]
      decide
    · simp only [List.cons_append, List.head?_cons, Option.some.injEq] at hc
      rw [← hc]
      decide
  have hdm : d ≠ '-' := by
    rintro rfl
    exact absurd hdd (by decide)
  have hdp : d ≠ '+' := by
    rintro rfl
    exact absurd hdd (by decide)
  rcases hsign with rfl | rfl | rfl
  · have hS' : s.data.dropWhile isStrWhiteSpace = (d :: ds) ++ rest := hS
    rw [parseInt10_unsigned s _ hS' (fun _ h' => hdm (List.cons.inj h').1)
      (fun _ h' => hdp (List.cons.inj h').1), htake]
    simp [hn, digitsValue_eq_ofDigits]
  · have hS' : s.data.dropWhile isStrWhiteSpace = '+' :: ((d :: ds) ++ rest) := hS
    rw [parseInt10_plus s _ hS', htake]
    simp [hn, digitsValue_eq_ofDigits]
  · have hS' : s.data.dropWhile isStrWhiteSpace = '-' :: ((d :: ds) ++ rest) := hS
    rw [parseInt10_minus s _ hS', htake]
    simp [hn, digitsValue_eq_ofDigits]

theorem parseInt10_iff_HasLeadingInteger (s : String) (n : Int) :
    parseInt10 s = some n ↔ HasLeadingInteger s n :=
  ⟨HasLeadingInteger_of_parseInt10 s n, parseInt10_of_HasLeadingInteger s n⟩


theorem SkillDetails_eq (paramsId : String) (form : BookingForm) :
    SkillDetails paramsId form =
      match findSkill (parseInt10 paramsId) with
      | none => .ok .skillNotFound
      | some sk => .ok (.details sk form) := by
  cases h : findSkill (parseInt10 paramsId) with
  | none =>
    simp only [SkillDetails, h]
    rfl
  | some sk =>
    simp only [SkillDetails, h]
    rfl

theorem findSkill_of_range (n : Int) (h1 : 1 ≤ n) (h6 : n ≤ 6) :
    ∃ sk ∈ SKILLS, (sk.skillId : Int) = n ∧ findSkill (some n) = some sk := by
  interval_cases n <;> decide

theorem SKILLS_ids_range : ∀ sk ∈ SKILLS, 1 ≤ sk.skillId ∧ sk.skillId ≤ 6 := by
  decide

/-- C13. The Detail view resolves the `:id` route parameter by its leading decimal
integer only: for every parameter string `s` whose base-10 integer prefix (after optional
leading white space and sign, ignoring any trailing characters) is `n`, `SkillDetails`
renders the catalog entry with identifier `n` when `1 <= n <= 6`, so that `1abc` and `2.9`
render the entries 1 and 2 although neither string is the numeral of a catalog
identifier; and it renders "Skill not found" exactly when `s` has no such prefix or `n`
is outside 1..6. -/
theorem SkillDetails_leading_integer (s : String) (form : BookingForm) :
    (∀ n : Int, HasLeadingInteger s n → 1 ≤ n → n ≤ 6 →
      ∃ sk ∈ SKILLS, (sk.skillId : Int) = n ∧
        SkillDetails s form = .ok (.details sk form)) ∧
    (SkillDetails s form = .ok .skillNotFound ↔
      ((¬ ∃ n : Int, HasLeadingInteger s n) ∨
        ∃ n : Int, HasLeadingInteger s n ∧ ¬ (1 ≤ n ∧ n ≤ 6))) ∧
    (∃ sk ∈ SKILLS, sk.skillId = 1 ∧ SkillDetails "1abc" form = .ok (.details sk form)) ∧
    (∃ sk ∈ SKILLS, sk.skillId = 2 ∧ SkillDetails "2.9" form = .ok (.details sk form)) ∧
    (∀ sk ∈ SKILLS, "1abc" ≠ toString sk.skillId ∧ "2.9" ≠ toString sk.skillId) := by
  have hfound : ∀ n : Int, parseInt10 s = some n → 1 ≤ n → n ≤ 6 →
      ∃ sk ∈ SKILLS, (sk.skillId : Int) = n ∧
        SkillDetails s form = .ok (.details sk form) := by
    intro n hp h1 h6
    obtain ⟨sk, hmem, hid, hf⟩ := findSkill_of_range n h1 h6
    exact ⟨sk, hmem, hid, by rw [SkillDetails_eq, hp, hf]⟩
  refine ⟨fun n hn => hfound n (parseInt10_of_HasLeadingInteger s n hn), ?_, ?_, ?_, by decide⟩
  · constructor
    · intro h
      cases hp : parseInt10 s with
      | none =>
        left
        rintro ⟨n, hn⟩
        rw [parseInt10_of_HasLeadingInteger s n hn] at hp
        exact Option.noConfusion hp
      | some n =>
        right
        refine ⟨n, HasLeadingInteger_of_parseInt10 s n hp, ?_⟩
        rintro ⟨h1, h6⟩
        obtain ⟨sk, _, _, hd⟩ := hfound n hp h1 h6
        rw [hd] at h
        simp at h
    · rintro (h | ⟨n, hn, hr⟩)
      · cases hp : parseInt10 s with
        | none =>
          rw [SkillDetails_eq, hp]
          rfl
        | some n => exact absurd ⟨n, HasLeadingInteger_of_parseInt10 s n hp⟩ h
      · have hp := parseInt10_of_HasLeadingInteger s n hn
        have hnone : findSkill (some n) = none := by
          apply findSkill_eq_none
          intro sk hsk heq
          have hrange := SKILLS_ids_range sk hsk
          have hn' : n = (sk.skillId : Int) := Option.some.inj heq
          apply hr
          rw [hn']
          exact ⟨by exact_mod_cast hrange.1, by exact_mod_cast hrange.2⟩
        rw [SkillDetails_eq, hp, hnone]
  · obtain ⟨sk, hmem, hid, hf⟩ := findSkill_of_range 1 (by decide) (by decide)
    refine ⟨sk, hmem, by exact_mod_cast hid, ?_⟩
    rw [SkillDetails_eq, show parseInt10 "1abc" = some 1 from by decide, hf]
  · obtain ⟨sk, hmem, hid, hf⟩ := findSkill_of_range 2 (by decide) (by decide)
    refine ⟨sk, hmem, by exact_mod_cast hid, ?_⟩
    rw [SkillDetails_eq, show parseInt10 "2.9" = some 2 from by decide, hf]

/-- C13 at ` +3rd` (white space, sign, digit, trailing text): the third entry. -/
theorem SkillDetails_leading_integer_witness :
    ∃ sk ∈ SKILLS, (sk.skillId : Int) = 3 ∧
      SkillDetails " +3rd" { name := "", email := "" } =
        .ok (.details sk { name := "", email := "" }) :=
  (SkillDetails_leading_integer " +3rd" { name := "", email := "" }).1 3
    ⟨[' '], ['+'], ['3'], ['r', 'd'], by decide, by decide, by decide, by decide, by decide,
      by decide, by decide⟩
    (by decide) (by decide)

end SkillSwap
